import Mathlib

/-!
Shallow embedding of the OSM LCM core (src/osm_lcm/lcm.py) and proofs about it.

Conventions used throughout:
* Python dictionaries that the code iterates or mutates are modelled as
  insertion-ordered association lists (`List (key × value)`); `lookupFirst`
  is `dict.get`, `setAssoc` is item assignment (existing key keeps its
  position, a new key is appended at the end).
* Python exceptions are values of `PyError`; a function that may raise
  returns `Except PyError _` or threads an `Option PyError` variable named
  after the source local `exc`.
* External collaborators (Db, RO, VCA, the bus) are oracles: each workflow
  model takes the outcome of every external call as an input field of its
  environment record, and returns the ordered list of side effects it
  performs together with its final control outcome.
* `time()` timestamps are abstracted to the boolean field `timeSet` of a
  database update (the code always stores `time()`, never a computed value).
-/

namespace OsmLcm

/-- First-match association-list lookup: Python `dict.get(key)`. -/
def lookupFirst {α β : Type} [DecidableEq α] : List (α × β) → α → Option β
  | [], _ => none
  | (k, v) :: rest, key => if k = key then some v else lookupFirst rest key

/-- Association-list assignment: Python `dict[key] = val` (existing key keeps
its position, a new key is appended at the end). -/
def setAssoc {α β : Type} [DecidableEq α] : List (α × β) → α → β → List (α × β)
  | [], key, val => [(key, val)]
  | (k, v) :: rest, key, val =>
    if k = key then (k, val) :: rest else (k, v) :: setAssoc rest key val

/-- Python exception values that appear in lcm.py. `unboundLocal` stands for
`UnboundLocalError`, which is a subclass of `NameError`. -/
inductive PyError where
  | unboundLocal
  | dbExc (msg : String)
  | roExc (httpCode : Nat) (msg : String)
  | lcmExc (msg : String)
  | otherExc (msg : String)
deriving Repr, DecidableEq

/-- Python `str(exc)` for the exceptions above. -/
def PyError.str : PyError → String
  | .unboundLocal => "local variable referenced before assignment"
  | .dbExc m => m
  | .roExc _ m => m
  | .lcmExc m => m
  | .otherExc m => m

/-- A Python value used as an `if` condition: `bool` or `int`, with Python
truthiness. Needed to model `consecutive_errors == 8 if not first_start
else 30` (lcm.py 1331, 1468), whose value is the integer 30 in the
`first_start` case. -/
inductive PyVal where
  | vBool (b : Bool)
  | vInt (n : Int)
deriving Repr, DecidableEq

def PyVal.truthy : PyVal → Bool
  | .vBool b => b
  | .vInt n => decide (n ≠ 0)

/-- An update written to an `nslcmops` document via
`update_db`/`update_db_2`. `operationState = none` means the update does not
touch `operationState`; `timeSet` records whether `statusEnteredTime` was
stored. -/
structure OpUpd where
  detailedStatus : String
  operationState : Option String
  timeSet : Bool
deriving Repr, DecidableEq

/-! ## n2vc_callback (lcm.py 511-636) -/

/-- One entry of `_admin.deployed.VCA` as read by the callback. -/
structure VcaInfo where
  operationalStatus : String
  detailedStatus : String
deriving Repr, DecidableEq

/-- `status_map` maintenance (lcm.py 589-592): start a missing bucket at
0 and increment. Dict insertion order is first-seen order. -/
def bumpStatus : List (String × Nat) → String → List (String × Nat)
  | [], s => [(s, 1)]
  | (k, n) :: rest, s =>
    if k = s then (k, n + 1) :: rest else (k, n) :: bumpStatus rest s

/-- Accumulator of the aggregation loop (lcm.py 584-598). -/
structure AggState where
  allActive : Bool
  statusMap : List (String × Nat)
  errorTexts : List String
deriving Repr, DecidableEq

/-- Body of `for vnf_index, vca_info in nsr_lcm["VCA"].items()` (lcm.py
587-598), translated branch for branch. Note the `elif` of the source: the
error/blocked test is only reached when `vca_status != "active"` is false. -/
def n2vcAggStep (memberVnfIndex : String) (st : AggState) (entry : String × VcaInfo) :
    AggState :=
  let vcaStatus := entry.2.operationalStatus
  let statusMap := bumpStatus st.statusMap vcaStatus
  if vcaStatus ≠ "active" then
    { st with allActive := false, statusMap := statusMap }
  else if vcaStatus = "error" ∨ vcaStatus = "blocked" then
    { st with
      statusMap := statusMap
      errorTexts := st.errorTexts ++
        ["member_vnf_index=" ++ memberVnfIndex ++ " " ++ vcaStatus ++ ": " ++
          entry.2.detailedStatus] }
  else
    { st with statusMap := statusMap }

def n2vcAggregate (memberVnfIndex : String) (vca : List (String × VcaInfo)) : AggState :=
  vca.foldl (n2vcAggStep memberVnfIndex) ⟨true, [], []⟩

/-- The `"configuring: <status>: <n>[, ...]"` text (lcm.py 616-620). -/
def configuringText (m : List (String × Nat)) : String :=
  "configuring: " ++
    String.intercalate ", " (m.map fun e => e.1 ++ ": " ++ toString e.2)

/-- How n2vc_callback was invoked: an out-of-band status push (`task is None`,
`status` given), or the completion hook of a supervised task. -/
inductive N2vcCall where
  | statusPush (status : String) (message : String)
  | taskCancelled
  | taskDoneExc (msg : String)
  | taskDoneOk
deriving Repr, DecidableEq

/-- Database updates produced by one callback invocation: the new `VCA` map
(in-memory, written as part of the nsr document), the nsr status fields
written, and the nslcmops update written. `none` = the corresponding
`update_db` was not executed. -/
structure N2vcResult where
  vca : List (String × VcaInfo)
  nsrWrite : Option (String × String)
  opWrite : Option OpUpd
deriving Repr, DecidableEq

/-- Outcome selection after the aggregation loop (lcm.py 600-624). Returns
(config-status = detailed-status of the nsr, nslcmops update). In the
`configuring` branch the nslcmops document is rewritten with only its
`detailed-status` changed and its `operationState` untouched. -/
def n2vcOutcome (st : AggState) : (String × String) × OpUpd :=
  if st.allActive then
    (("configured", "done"), ⟨"Done", some "COMPLETED", true⟩)
  else if st.errorTexts ≠ [] then
    let errorText := "fail configuring " ++ String.intercalate ";" st.errorTexts
    (("failed", errorText), ⟨errorText, some "FAILED_TEMP", true⟩)
  else
    let cs := configuringText st.statusMap
    ((cs, cs), ⟨cs, none, false⟩)

/-- n2vc_callback (lcm.py 511-636) for an operation of type `nsAction`
(`db_nslcmop["lcmOperationType"]`), invoked for `memberVnfIndex` on a VCA map
`vca`. Statements faithful to the source:
* task cancelled: log and return, no update (545-548);
* task done with exception and nsAction = action: nslcmops FAILED with
  str(exc) and statusEnteredTime, return (557-562);
* task done with exception and nsAction instantiate/terminate: mark the
  entry error/str(exc) and fall through to aggregation (554-556);
* task done without exception: for action, nslcmops COMPLETED/Done; always
  return before aggregation (564-573);
* status push with an unchanged status: return (576-577); otherwise update
  the entry and aggregate (578-579). -/
def n2vc_callback (nsAction : String) (memberVnfIndex : String)
    (vca : List (String × VcaInfo)) (call : N2vcCall) : N2vcResult :=
  match call with
  | .taskCancelled => ⟨vca, none, none⟩
  | .taskDoneExc m =>
    if nsAction = "instantiate" ∨ nsAction = "terminate" then
      let vca := setAssoc vca memberVnfIndex ⟨"error", m⟩
      let st := n2vcAggregate memberVnfIndex vca
      let out := n2vcOutcome st
      ⟨vca, some out.1, some out.2⟩
    else if nsAction = "action" then
      ⟨vca, none, some ⟨m, some "FAILED", true⟩⟩
    else
      ⟨vca, none, none⟩
  | .taskDoneOk =>
    if nsAction = "action" then
      ⟨vca, none, some ⟨"Done", some "COMPLETED", true⟩⟩
    else
      ⟨vca, none, none⟩
  | .statusPush status message =>
    match lookupFirst vca memberVnfIndex with
    | none => ⟨vca, none, none⟩
    | some info =>
      if info.operationalStatus = status then
        ⟨vca, none, none⟩
      else
        let vca := setAssoc vca memberVnfIndex ⟨status, message⟩
        let st := n2vcAggregate memberVnfIndex vca
        let out := n2vcOutcome st
        ⟨vca, some out.1, some out.2⟩

/-! ## kafka_read error handling (lcm.py 1339-1345, 1465-1474) -/

/-- The condition of lcm.py 1468, `consecutive_errors == 8 if not first_start
else 30`: by Python precedence this is `(consecutive_errors == 8) if (not
first_start) else 30`, so during startup the condition is the truthy
integer 30. -/
def kafka_read_exit_cond (consecutive_errors : Nat) (first_start : Bool) : PyVal :=
  if !first_start then .vBool (consecutive_errors == 8) else .vInt 30

/-- Back-off of lcm.py 1473, `wait_time = 2 if not first_start else 5`. -/
def kafka_read_wait (first_start : Bool) : Nat :=
  if !first_start then 2 else 5

/-- One pass through the `except Exception` clause of kafka_read (lcm.py
1465-1474): `none` means the handler re-raises (loop exits with the error),
`some (ce, w)` means it retries with the new consecutive-error count `ce`
after sleeping `w` seconds. -/
def kafka_read_on_error (consecutive_errors : Nat) (first_start : Bool) :
    Option (Nat × Nat) :=
  if (kafka_read_exit_cond consecutive_errors first_start).truthy then none
  else some (consecutive_errors + 1, kafka_read_wait first_start)

/-! ## kafka_ping (lcm.py 1307-1327) -/

structure PingState where
  pingsNotReceived : Nat
  kafkaHasReceived : Bool
deriving Repr, DecidableEq

structure PingIter where
  published : Bool
  waitTime : Nat
  raised : Bool
  next : PingState
deriving Repr, DecidableEq

/-- One iteration of the kafka_ping while-loop body (lcm.py 1313-1325),
in source order: publish the self-ping; `wait_time = 5 if not
kafka_has_received else 120`; latch `kafka_has_received` when the counter is
0; increment the counter; sleep; raise `LcmException` when the counter
exceeds 10. `pingArrives` models kafka_read resetting `pings_not_received`
to 0 (lcm.py 1369-1370) while this coroutine sleeps. -/
def kafka_ping_iter (st : PingState) (pingArrives : Bool) : PingIter :=
  let waitTime := if !st.kafkaHasReceived then 5 else 120
  let khr := if st.pingsNotReceived == 0 then true else st.kafkaHasReceived
  let pnr := st.pingsNotReceived + 1
  let pnr := if pingArrives then 0 else pnr
  { published := true
    waitTime := waitTime
    raised := decide (pnr > 10)
    next := ⟨pnr, khr⟩ }

/-! ## Task registry and cancel_tasks (lcm.py 51-53, 1284-1305) -/

/-- One topic of the registry: entity-id ↦ order-id ↦ task-name list (the
task handles themselves are irrelevant to cancellation bookkeeping; `cancel`
is called on each and only logged). -/
abbrev TopicTasks := List (String × List (Nat × List String))

structure TaskRegistry where
  lcm_ns_tasks : TopicTasks
  lcm_vim_tasks : TopicTasks
  lcm_sdn_tasks : TopicTasks
deriving Repr, DecidableEq

/-- `if not lcm_tasks.get(_id): return` followed by `lcm_tasks[_id] = {}`
(lcm.py 1298-1305). A missing key and an empty dict are both falsy, so both
return with the map unchanged. -/
def cancelIn (m : TopicTasks) (id : String) : TopicTasks :=
  match lookupFirst m id with
  | none => m
  | some om => if om = [] then m else setAssoc m id []

/-- cancel_tasks (lcm.py 1284-1305). The topic dispatch binds `lcm_tasks`
only for `ns`, `vim_account` and `sdn`; any other topic reaches
`lcm_tasks.get(_id)` with the local never assigned and raises
`UnboundLocalError` (a `NameError` subclass). -/
def cancel_tasks (topic id : String) (r : TaskRegistry) : Except PyError TaskRegistry :=
  if topic = "ns" then
    .ok { r with lcm_ns_tasks := cancelIn r.lcm_ns_tasks id }
  else if topic = "vim_account" then
    .ok { r with lcm_vim_tasks := cancelIn r.lcm_vim_tasks id }
  else if topic = "sdn" then
    .ok { r with lcm_sdn_tasks := cancelIn r.lcm_sdn_tasks id }
  else
    .error .unboundLocal

/-! ## update_db / update_db_2 (lcm.py 148-158) -/

/-- update_db (lcm.py 148-152): `db.replace` may raise `DbException`; the
handler logs it and the function returns normally. The argument is the
outcome of `db.replace`; the result is what the caller of update_db
observes. -/
def update_db (replaceResult : Except PyError Unit) : Except PyError Unit :=
  match replaceResult with
  | .ok () => .ok ()
  | .error _ => .ok ()

/-- update_db_2 (lcm.py 154-158): identical shape over `db.set_one`. -/
def update_db_2 (setOneResult : Except PyError Unit) : Except PyError Unit :=
  match setOneResult with
  | .ok () => .ok ()
  | .error _ => .ok ()

/-! ## vim_create (lcm.py 160-231) -/

/-- A full-document write of a `vim_accounts` (or `sdns`) row via update_db,
restricted to the fields the workflow touches. -/
structure VimDbWrite where
  deployedRO : Option String
  operationalState : Option String
  detailedStatus : Option String
deriving Repr, DecidableEq

/-- External-call outcomes consumed by one vim_create run. `sdnController`
is `vim_content.config.sdn-controller`; `fetchSdn` gives
`sdns._admin.deployed.RO` of that row (`none` = absent, so "not deployed at
RO"). `dbApplies` tells whether the `db.replace` calls inside update_db
succeed; update_db swallows the failure either way. -/
structure VimCreateEnv where
  fetchVim : Except PyError Unit
  sdnController : Option String
  fetchSdn : Except PyError (Option String)
  roCreate : Except (Nat × String) String
  roAttach : Except (Nat × String) Unit
  dbApplies : Bool
deriving Repr

structure VimCreateResult where
  writes : List VimDbWrite
  ret : Option String
deriving Repr, DecidableEq

/-- vim_create (lcm.py 160-231) with the RO payload construction (pure
dict surgery on `vim_content`, lcm.py 187-213) abstracted away: no claim
depends on the payload fields, only on the control flow, the writes and the
states recorded. The single outer try ends in `finally: if exc and db_vim:`
write `operationalState = ERROR` and `detailed-status = "ERROR {step}:
{exc}"`; if the initial fetch raised, `db_vim` is still `None` and nothing
is written. -/
def vim_create (env : VimCreateEnv) : VimCreateResult :=
  match env.fetchVim with
  | .error _ => ⟨[], none⟩
  | .ok () =>
    let sdnStep : Except (String × String) Unit :=
      match env.sdnController with
      | none => .ok ()
      | some sdnId =>
        match env.fetchSdn with
        | .error e =>
          .error ("Getting sdn-controller-id=" ++ sdnId ++ " from db", e.str)
        | .ok (some _) => .ok ()
        | .ok none =>
          .error ("Getting sdn-controller-id=" ++ sdnId ++ " from db",
            "sdn-controller=" ++ sdnId ++ " is not available. Not deployed at RO")
    match sdnStep with
    | .error (step, msg) =>
      ⟨[⟨none, some "ERROR", some ("ERROR " ++ step ++ ": " ++ msg)⟩], none⟩
    | .ok () =>
      match env.roCreate with
      | .error e =>
        ⟨[⟨none, some "ERROR",
           some ("ERROR Creating vim at RO: " ++ e.2)⟩], none⟩
      | .ok uuid =>
        let w1 : VimDbWrite := ⟨some uuid, none, none⟩
        match env.roAttach with
        | .error e =>
          ⟨[w1, ⟨some uuid, some "ERROR",
             some ("ERROR Creating vim_account at RO: " ++ e.2)⟩], none⟩
        | .ok () =>
          ⟨[w1, ⟨some uuid, some "ENABLED", none⟩], some uuid⟩

/-- The writes of a vim_create run that actually reached the database:
update_db attempts `db.replace` and swallows a failure, so with
`dbApplies = false` every write is lost while the control flow of
`vim_create` is unchanged (it never inspects the flag). -/
def vim_create_applied (env : VimCreateEnv) : List VimDbWrite :=
  if env.dbApplies then (vim_create env).writes else []

/-! ## vim_delete (lcm.py 307-352) and sdn_delete (lcm.py 436-472) -/

/-- Outcomes of the external calls of one vim_delete run. `fetchVim` yields
`_admin.deployed.RO` of the row (`none` when absent or null). RO call
outcomes are `none` for success or `some (http_code, msg)` for an
`ROClientException`. -/
structure VimDeleteEnv where
  fetchVim : Except PyError (Option String)
  detach : Option (Nat × String)
  delete : Option (Nat × String)
  delOne : Except PyError Unit
deriving Repr

structure DeleteResult where
  roDetachCalled : Bool
  roDeleteCalled : Bool
  rowDeleted : Bool
  errorWrite : Option String
deriving Repr, DecidableEq

/-- vim_delete (lcm.py 307-352). Both `detach_datacenter` and
`delete("vim", ...)` treat an HTTP 404 `ROClientException` as already gone
(debug log only) and re-raise anything else; the outer handler records
`ERROR {step}: {exc}` in the row, but only when the row was fetched. -/
def vim_delete (env : VimDeleteEnv) : DeleteResult :=
  match env.fetchVim with
  | .error _ => ⟨false, false, false, none⟩
  | .ok ro =>
    match ro with
    | some _ =>
      match env.detach with
      | some (c, m) =>
        if c = 404 then
          match env.delete with
          | some (c2, m2) =>
            if c2 = 404 then
              match env.delOne with
              | .error e =>
                ⟨true, true, false, some ("ERROR Deleting vim from RO: " ++ e.str)⟩
              | .ok () => ⟨true, true, true, none⟩
            else
              ⟨true, true, false, some ("ERROR Deleting vim from RO: " ++ m2)⟩
          | none =>
            match env.delOne with
            | .error e =>
              ⟨true, true, false, some ("ERROR Deleting vim from RO: " ++ e.str)⟩
            | .ok () => ⟨true, true, true, none⟩
        else
          ⟨true, false, false, some ("ERROR Detaching vim from RO tenant: " ++ m)⟩
      | none =>
        match env.delete with
        | some (c2, m2) =>
          if c2 = 404 then
            match env.delOne with
            | .error e =>
              ⟨true, true, false, some ("ERROR Deleting vim from RO: " ++ e.str)⟩
            | .ok () => ⟨true, true, true, none⟩
          else
            ⟨true, true, false, some ("ERROR Deleting vim from RO: " ++ m2)⟩
        | none =>
          match env.delOne with
          | .error e =>
            ⟨true, true, false, some ("ERROR Deleting vim from RO: " ++ e.str)⟩
          | .ok () => ⟨true, true, true, none⟩
    | none =>
      match env.delOne with
      | .error e =>
        ⟨false, false, false, some ("ERROR Getting vim from db: " ++ e.str)⟩
      | .ok () => ⟨false, false, true, none⟩

structure SdnDeleteEnv where
  fetchSdn : Except PyError (Option String)
  delete : Option (Nat × String)
  delOne : Except PyError Unit
deriving Repr

/-- sdn_delete (lcm.py 436-472): the same skeleton as vim_delete without the
detach step. -/
def sdn_delete (env : SdnDeleteEnv) : DeleteResult :=
  match env.fetchSdn with
  | .error _ => ⟨false, false, false, none⟩
  | .ok ro =>
    match ro with
    | some _ =>
      match env.delete with
      | some (c, m) =>
        if c = 404 then
          match env.delOne with
          | .error e =>
            ⟨false, true, false, some ("ERROR Deleting sdn from RO: " ++ e.str)⟩
          | .ok () => ⟨false, true, true, none⟩
        else
          ⟨false, true, false, some ("ERROR Deleting sdn from RO: " ++ m)⟩
      | none =>
        match env.delOne with
        | .error e =>
          ⟨false, true, false, some ("ERROR Deleting sdn from RO: " ++ e.str)⟩
        | .ok () => ⟨false, true, true, none⟩
    | none =>
      match env.delOne with
      | .error e =>
        ⟨false, false, false, some ("ERROR Getting sdn from db: " ++ e.str)⟩
      | .ok () => ⟨false, false, true, none⟩

/-! ## vim_edit (lcm.py 233-305), sdn_create (354-395), sdn_edit (397-434) -/

/-- External-call outcomes of one vim_edit run. `fetchVim` yields
`_admin.deployed.RO` of the row (`none` for absent or falsy);
`editVimNonempty` is whether the stripped `vim_RO` payload is non-empty
(the `if vim_RO:` guard, lcm.py 270); `hasAccountFields` is whether any of
vim_tenant_name/vim_password/config survives into `vim_account_RO`
(lcm.py 287). -/
structure VimEditEnv where
  vimId : String
  fetchVim : Except PyError (Option String)
  sdnController : Option String
  fetchSdn : Except PyError (Option String)
  editVimNonempty : Bool
  roEditVim : Except (Nat × String) Unit
  hasAccountFields : Bool
  roEditAccount : Except (Nat × String) Unit
deriving Repr

/-- vim_edit (lcm.py 233-305). Faithful points: the whole body is guarded by
`if db_vim._admin.deployed.RO:`; when that is falsy the guard is skipped and
`return RO_vim_id` (lcm.py 293) reads a never-assigned local, raising
`UnboundLocalError`, which the generic `except Exception` (298) catches, so
the finally block still records ERROR with the initial step (the quote
characters the source puts around the vim id in that step text are
elided). On success there is a single ENABLED write (lcm.py 290). -/
def vim_edit (env : VimEditEnv) : VimCreateResult :=
  match env.fetchVim with
  | .error _ => ⟨[], none⟩
  | .ok none =>
    ⟨[⟨none, some "ERROR",
       some ("ERROR Getting vim-id=" ++ env.vimId ++ " from db: " ++
         PyError.unboundLocal.str)⟩], none⟩
  | .ok (some roId) =>
    let sdnStep : Except (String × String) Unit :=
      match env.sdnController with
      | none => .ok ()
      | some sdnId =>
        match env.fetchSdn with
        | .error e =>
          .error ("Getting sdn-controller-id=" ++ sdnId ++ " from db", e.str)
        | .ok (some _) => .ok ()
        | .ok none =>
          .error ("Getting sdn-controller-id=" ++ sdnId ++ " from db",
            "sdn-controller=" ++ sdnId ++ " is not available. Not deployed at RO")
    match sdnStep with
    | .error (step, msg) =>
      ⟨[⟨some roId, some "ERROR", some ("ERROR " ++ step ++ ": " ++ msg)⟩], none⟩
    | .ok () =>
      let editStep : Except String Unit :=
        if env.editVimNonempty then
          match env.roEditVim with
          | .error e => .error ("ERROR Editing vim at RO: " ++ e.2)
          | .ok () => .ok ()
        else .ok ()
      match editStep with
      | .error msg => ⟨[⟨some roId, some "ERROR", some msg⟩], none⟩
      | .ok () =>
        let accountStep : Except String Unit :=
          if env.hasAccountFields then
            match env.roEditAccount with
            | .error e => .error ("ERROR Editing vim-account at RO tenant: " ++ e.2)
            | .ok () => .ok ()
          else .ok ()
        match accountStep with
        | .error msg => ⟨[⟨some roId, some "ERROR", some msg⟩], none⟩
        | .ok () => ⟨[⟨some roId, some "ENABLED", none⟩], some roId⟩

structure SdnCreateEnv where
  fetchSdn : Except PyError Unit
  roCreate : Except (Nat × String) String
deriving Repr

/-- sdn_create (lcm.py 354-395): fetch the row, create the sdn at RO, store
the uuid and ENABLED in a single write; the error epilogue is guarded by
`if exc and db_sdn`. -/
def sdn_create (env : SdnCreateEnv) : VimCreateResult :=
  match env.fetchSdn with
  | .error _ => ⟨[], none⟩
  | .ok () =>
    match env.roCreate with
    | .error e =>
      ⟨[⟨none, some "ERROR", some ("ERROR Creating sdn at RO: " ++ e.2)⟩], none⟩
    | .ok uuid => ⟨[⟨some uuid, some "ENABLED", none⟩], some uuid⟩

structure SdnEditEnv where
  fetchSdn : Except PyError (Option String)
  editNonempty : Bool
  roEdit : Except (Nat × String) Unit
deriving Repr

/-- sdn_edit (lcm.py 397-434): same skeleton as vim_edit without the sdn
resolution and the account edit, including the `return RO_sdn_id` of a
never-assigned local (lcm.py 422) when the row has no RO information. -/
def sdn_edit (env : SdnEditEnv) : VimCreateResult :=
  match env.fetchSdn with
  | .error _ => ⟨[], none⟩
  | .ok none =>
    ⟨[⟨none, some "ERROR",
       some ("ERROR Getting sdn from db: " ++ PyError.unboundLocal.str)⟩], none⟩
  | .ok (some roId) =>
    let editStep : Except String Unit :=
      if env.editNonempty then
        match env.roEdit with
        | .error e => .error ("ERROR Editing sdn at RO: " ++ e.2)
        | .ok () => .ok ()
      else .ok ()
    match editStep with
    | .error msg => ⟨[⟨some roId, some "ERROR", some msg⟩], none⟩
    | .ok () => ⟨[⟨some roId, some "ENABLED", none⟩], some roId⟩

/-! ## ns_action (lcm.py 1193-1279) -/

/-- Completion state of the supervised `ExecutePrimitive` task after
`asyncio.wait((task,), timeout=300)`: `running` means the 300 s timeout
expired with the task still pending. -/
inductive TaskOutcome where
  | cancelled
  | doneOk
  | doneExc (msg : String)
  | running
deriving Repr, DecidableEq

/-- One entry of `_admin.deployed.VCA` as read by ns_action.
`vca_deployed.get("model")` / `.get("application")` may be absent (`none`)
or empty; both are falsy. -/
structure VcaDeployed where
  model : Option String
  application : Option String
  operationalStatus : String
deriving Repr, DecidableEq

def strFalsy : Option String → Bool
  | none => true
  | some s => s = ""

structure NsActionEnv where
  fetchNslcmop : Except PyError String
  fetchNsr : Except PyError (List (String × Option VcaDeployed))
  outcome : TaskOutcome
deriving Repr

structure NsActionResult where
  executeCalled : Bool
  write : Option OpUpd
deriving Repr, DecidableEq

/-- The step string of ns_action: it is assigned once (lcm.py 1202) and
never updated, so every `FAILED {step}: {exc}` message produced by the
`finally` block names the database fetch. -/
def nsActionStep : String := "Getting information from database"

/-- ns_action (lcm.py 1193-1279). Faithful points that matter below:
* validation raises `LcmException` before `ExecutePrimitive` unless the VCA
  entry exists with truthy model and application and operational-status
  "active" (1209-1218);
* in the cancelled branch only the in-memory `db_nslcmop` dict receives
  "Task has been cancelled" (1242); the persisted `db_nslcmop_update` keeps
  `result_detail = ""` (1240, 1257);
* in the done-with-exception branch the local `exc` is reused for
  `task.exception()` (1244), so the `finally` block (1272-1277) overwrites
  `db_nslcmop_update` with `FAILED {step}: {exc}`;
* `db_nslcmop_update` is set to None up front (1199), so a failed nslcmop
  fetch writes nothing.
The quote characters the source puts around the word active in its third
validation message are elided here. -/
def ns_action (env : NsActionEnv) : NsActionResult :=
  match env.fetchNslcmop with
  | .error _ => ⟨false, none⟩
  | .ok vnfIndex =>
    match env.fetchNsr with
    | .error e =>
      ⟨false, some ⟨"FAILED " ++ nsActionStep ++ ": " ++ e.str, some "FAILED", true⟩⟩
    | .ok vcaMap =>
      match (lookupFirst vcaMap vnfIndex).bind id with
      | none =>
        let msg := "charm for member_vnf_index=" ++ vnfIndex ++ " is not deployed"
        ⟨false, some ⟨"FAILED " ++ nsActionStep ++ ": " ++ msg, some "FAILED", true⟩⟩
      | some vca =>
        if strFalsy vca.model ∨ strFalsy vca.application then
          let msg := "charm for member_vnf_index=" ++ vnfIndex ++
            " is not properly deployed"
          ⟨false, some ⟨"FAILED " ++ nsActionStep ++ ": " ++ msg, some "FAILED", true⟩⟩
        else if vca.operationalStatus ≠ "active" then
          let msg := "charm for member_vnf_index=" ++ vnfIndex ++
            " operational_status=" ++ vca.operationalStatus ++ " not active"
          ⟨false, some ⟨"FAILED " ++ nsActionStep ++ ": " ++ msg, some "FAILED", true⟩⟩
        else
          match env.outcome with
          | .cancelled =>
            ⟨true, some ⟨"", some "FAILED", true⟩⟩
          | .doneOk =>
            ⟨true, some ⟨"Done", some "COMPLETED", true⟩⟩
          | .doneExc m =>
            ⟨true, some ⟨"FAILED " ++ nsActionStep ++ ": " ++ m, some "FAILED", true⟩⟩
          | .running =>
            ⟨true, some ⟨"timeout", some "FAILED", true⟩⟩

/-! ## Shared state of the NS workflows -/

/-- One entry of `_admin.deployed.VCA` as written by ns_instantiate and read
by ns_terminate (only the fields ns_terminate consumes). -/
structure VcaDeployInfo where
  model : String
  application : String
deriving Repr, DecidableEq

/-- `_admin.deployed.RO` of an nsrs document. Values of `vnfd_id` are
`none` once nulled out by a terminate. -/
structure NsrLcmRO where
  nsr_id : Option String
  nsd_id : Option String
  vnfd_id : List (String × Option String)
  nsr_status : String
deriving Repr, DecidableEq

/-- `_admin.deployed` of an nsrs document (the parts these workflows use). -/
structure NsrLcm where
  RO : NsrLcmRO
  VCA : List (String × Option VcaDeployInfo)
deriving Repr, DecidableEq

/-- An nsrs update of selected fields issued through `update_db_2` (`none` = field not
part of the update). `deployed` carries the `_admin.deployed` value when the
update includes it. -/
structure NsrUpd where
  operationalStatus : Option String
  configStatus : Option String
  detailedStatus : Option String
  nsState : Option String
  deployed : Option NsrLcm
deriving Repr, DecidableEq

/-- Ordered side effects of an NS workflow run. `writeNsrFull` is a
whole-document `update_db` of the nsrs row restricted to the status fields
the workflow has touched at that point (`configStatus`/`nsState` are `none`
when the workflow has not set them). -/
inductive Effect where
  | roDelete (kind id : String)
  | vcaRemoveCharms (model application : String)
  | writeNsr (u : NsrUpd)
  | writeNsrFull (detailedStatus operationalStatus : String)
      (configStatus : Option String) (nsState : Option String)
  | writeNslcmop (u : OpUpd)
  | delNsrRow
  | delNslcmopRows
  | delVnfrRows
deriving Repr, DecidableEq

/-- The latest nslcmops update among a list of effects (the one whose value
survives in the database after the run). -/
def lastNslcmopWrite (l : List Effect) : Option OpUpd :=
  l.foldl (fun acc e => match e with | .writeNslcmop u => some u | _ => acc) none

/-! ## ns_terminate (lcm.py 1016-1191) -/

/-- External-call outcomes of one ns_terminate run. RO delete outcomes are
`none` for success or `some (http_code, msg)` for an `ROClientException`;
`roDeleteVnfd` is keyed by the `vnfd_id` map key (a missing key means the
delete succeeds). `taskOutcome` gives the state of each `RemoveCharms` task
after the 300 s wait (a missing key means done without exception). -/
structure NsTermEnv where
  fetchNslcmop : Except PyError Bool
  fetchNsr : Except PyError (String × NsrLcm)
  roDeleteNs : Option (Nat × String)
  roDeleteNsd : Option (Nat × String)
  roDeleteVnfd : List (String × Option (Nat × String))
  taskOutcome : List (String × TaskOutcome)
deriving Repr

def getRoDel (l : List (String × Option (Nat × String))) (k : String) :
    Option (Nat × String) :=
  (lookupFirst l k).getD none

def getTask (l : List (String × TaskOutcome)) (k : String) : TaskOutcome :=
  (lookupFirst l k).getD .doneOk

/-- The VCA entries for which a `RemoveCharms` task is dispatched (lcm.py
1047-1048): `if deploy_info and deploy_info.get("application")`. -/
def vcaTasksOf (vca : List (String × Option VcaDeployInfo)) :
    List (String × VcaDeployInfo) :=
  vca.filterMap fun e =>
    match e.2 with
    | some i => if i.application ≠ "" then some (e.1, i) else none
    | none => none

/-- Output of one RO deletion phase of ns_terminate. -/
structure RoDelOut where
  effects : List Effect
  fd : List String
  newId : Option String
  newStatus : String
  stepSet : Option String
deriving Repr, DecidableEq

/-- Deleting the ns at RO (lcm.py 1071-1089): success and 404 null the id
and record status DELETED; 409 and any other error append to
`failed_detail` and continue. -/
def deleteNsStep (res : Option (Nat × String)) (nsrId : Option String)
    (nsrStatus : String) : RoDelOut :=
  match nsrId with
  | none => ⟨[], [], none, nsrStatus, none⟩
  | some rid =>
    match res with
    | none => ⟨[.roDelete "ns" rid], [], none, "DELETED", some "Deleting ns at RO"⟩
    | some (c, m) =>
      if c = 404 then
        ⟨[.roDelete "ns" rid], [], none, "DELETED", some "Deleting ns at RO"⟩
      else if c = 409 then
        ⟨[.roDelete "ns" rid], ["RO_ns_id=" ++ rid ++ " delete conflict: " ++ m],
          some rid, nsrStatus, some "Deleting ns at RO"⟩
      else
        ⟨[.roDelete "ns" rid], ["RO_ns_id=" ++ rid ++ " delete error: " ++ m],
          some rid, nsrStatus, some "Deleting ns at RO"⟩

/-- Deleting the nsd at RO (lcm.py 1092-1108): same policy, no status
field. -/
def deleteNsdStep (res : Option (Nat × String)) (nsdId : Option String) :
    List Effect × List String × Option String × Option String :=
  match nsdId with
  | none => ([], [], none, none)
  | some rid =>
    match res with
    | none => ([.roDelete "nsd" rid], [], none, some "Deleting nsd at RO")
    | some (c, m) =>
      if c = 404 then
        ([.roDelete "nsd" rid], [], none, some "Deleting nsd at RO")
      else if c = 409 then
        ([.roDelete "nsd" rid], ["RO_nsd_id=" ++ rid ++ " delete conflict: " ++ m],
          some rid, some "Deleting nsd at RO")
      else
        ([.roDelete "nsd" rid], ["RO_nsd_id=" ++ rid ++ " delete error: " ++ m],
          some rid, some "Deleting nsd at RO")

structure VnfdFoldOut where
  effects : List Effect
  fd : List String
  entries : List (String × Option String)
  stepSet : Option String
deriving Repr, DecidableEq

/-- Body of `for vnf_id, RO_vnfd_id in nsr_lcm["RO"]["vnfd_id"].items()`
(lcm.py 1110-1127): skip nulled ids; success and 404 null the entry; 409
and other errors keep it and append to `failed_detail`. -/
def deleteVnfdOne (rds : List (String × Option (Nat × String)))
    (acc : VnfdFoldOut) (e : String × Option String) : VnfdFoldOut :=
  match e.2 with
  | none => { acc with entries := acc.entries ++ [e] }
  | some rid =>
    let step := "Deleting vnfd=" ++ e.1 ++ " at RO"
    match getRoDel rds e.1 with
    | none =>
      { acc with
        effects := acc.effects ++ [.roDelete "vnfd" rid]
        entries := acc.entries ++ [(e.1, none)]
        stepSet := some step }
    | some (c, m) =>
      if c = 404 then
        { acc with
          effects := acc.effects ++ [.roDelete "vnfd" rid]
          entries := acc.entries ++ [(e.1, none)]
          stepSet := some step }
      else if c = 409 then
        { acc with
          effects := acc.effects ++ [.roDelete "vnfd" rid]
          fd := acc.fd ++ ["RO_vnfd_id=" ++ rid ++ " delete conflict: " ++ m]
          entries := acc.entries ++ [e]
          stepSet := some step }
      else
        { acc with
          effects := acc.effects ++ [.roDelete "vnfd" rid]
          fd := acc.fd ++ ["RO_vnfd_id=" ++ rid ++ " delete error: " ++ m]
          entries := acc.entries ++ [e]
          stepSet := some step }

def deleteVnfds (rds : List (String × Option (Nat × String)))
    (entries : List (String × Option String)) : VnfdFoldOut :=
  entries.foldl (deleteVnfdOne rds) ⟨[], [], [], none⟩

structure VcaWaitOut where
  fd : List String
  vca : List (String × Option VcaDeployInfo)
  excv : Option String
deriving Repr, DecidableEq

/-- Body of `for vnf_index, task in vca_task_dict.items()` (lcm.py
1131-1143). Done tasks reuse the outer local `exc` for `task.exception()`,
so the last done task decides the value `exc` holds when the `finally`
block runs. -/
def vcaWaitOne (touts : List (String × TaskOutcome)) (acc : VcaWaitOut)
    (e : String × VcaDeployInfo) : VcaWaitOut :=
  match getTask touts e.1 with
  | .cancelled =>
    { acc with fd := acc.fd ++ ["VCA[" ++ e.1 ++ "] Deletion has been cancelled"] }
  | .doneOk =>
    { fd := acc.fd, vca := setAssoc acc.vca e.1 none, excv := none }
  | .doneExc m =>
    { acc with
      fd := acc.fd ++ ["VCA[" ++ e.1 ++ "] Deletion exception: " ++ m]
      excv := some m }
  | .running =>
    { acc with fd := acc.fd ++ ["VCA[" ++ e.1 ++ "] Deletion timeout"] }

def vcaWait (touts : List (String × TaskOutcome))
    (vca0 : List (String × Option VcaDeployInfo))
    (tasks : List (String × VcaDeployInfo)) : VcaWaitOut :=
  tasks.foldl (vcaWaitOne touts) ⟨[], vca0, none⟩

def stepOr (a : Option String) (b : String) : String := a.getD b

/-- ns_terminate (lcm.py 1016-1191). The locals `db_nsr_update` and
`db_nslcmop_update` are never assigned before the try block (unlike
`db_nsr`, `db_nslcmop` and `exc`, lcm.py 1019-1021), and the `finally`
block tests both with plain `if`; every path on which one of them was never
assigned therefore raises `UnboundLocalError` out of the `finally` block:
* a failed nslcmop fetch (neither bound, nothing written);
* a failed nsr fetch (the `if exc and db_nslcmop` arm binds and writes the
  nslcmops FAILED update first, then the `db_nsr_update` test raises);
* the early return for `nsState == NOT_INSTANTIATED` (lcm.py 1031-1032);
* the autoremove branch (lcm.py 1157-1160), which binds neither update
  after deleting the rows (`db_nsr_update` still holds the terminating
  update from lcm.py 1038, but `db_nslcmop_update` is tested first). -/
def ns_terminate (env : NsTermEnv) : List Effect × Except PyError Unit :=
  match env.fetchNslcmop with
  | .error _ => ([], .error .unboundLocal)
  | .ok autoremove =>
    match env.fetchNsr with
    | .error e =>
      ([.writeNslcmop
          ⟨"FAILED Getting nsr, nslcmop from db: " ++ e.str, some "FAILED", true⟩],
        .error .unboundLocal)
    | .ok (nsState, lcm0) =>
      if nsState = "NOT_INSTANTIATED" then ([], .error .unboundLocal)
      else
        let terminatingUpd : NsrUpd :=
          ⟨some "terminating", some "terminating", some "Deleting charms", none, none⟩
        let tasks := vcaTasksOf lcm0.VCA
        let wVca := tasks.map fun e => Effect.vcaRemoveCharms e.2.model e.2.application
        let nsOut := deleteNsStep env.roDeleteNs lcm0.RO.nsr_id lcm0.RO.nsr_status
        let nsdOut := deleteNsdStep env.roDeleteNsd lcm0.RO.nsd_id
        let vnfdOut := deleteVnfds env.roDeleteVnfd lcm0.RO.vnfd_id
        let vcaOut := vcaWait env.taskOutcome lcm0.VCA tasks
        let failedDetail := nsOut.fd ++ nsdOut.2.1 ++ vnfdOut.fd ++ vcaOut.fd
        let lcmFinal : NsrLcm :=
          ⟨⟨nsOut.newId, nsdOut.2.2.1, vnfdOut.entries, nsOut.newStatus⟩, vcaOut.vca⟩
        let step := stepOr vnfdOut.stepSet
          (stepOr nsdOut.2.2.2 (stepOr nsOut.stepSet "Getting nsr, nslcmop from db"))
        let effs0 := Effect.writeNsr terminatingUpd ::
          (wVca ++ nsOut.effects ++ nsdOut.1 ++ vnfdOut.effects)
        let sel : List Effect × Option NsrUpd × Option OpUpd :=
          if failedDetail ≠ [] then
            (effs0,
              some ⟨some "failed", none,
                some ("Deletion errors " ++ String.intercalate "; " failedDetail),
                none, some lcmFinal⟩,
              some ⟨String.intercalate "; " failedDetail, some "FAILED", true⟩)
          else if autoremove then
            (effs0 ++ [.delNsrRow, .delNslcmopRows, .delVnfrRows],
              some terminatingUpd, none)
          else
            (effs0,
              some ⟨some "terminated", none, some "Done",
                some "NOT_INSTANTIATED", some lcmFinal⟩,
              some ⟨"Done", some "COMPLETED", true⟩)
        let effs := sel.1
        let nsrUpdVar := sel.2.1
        let opUpdVar :=
          match vcaOut.excv with
          | some m => some (⟨"FAILED " ++ step ++ ": " ++ m, some "FAILED", true⟩ : OpUpd)
          | none => sel.2.2
        match opUpdVar with
        | none => (effs, .error .unboundLocal)
        | some u =>
          match nsrUpdVar with
          | none => (effs ++ [.writeNslcmop u], .error .unboundLocal)
          | some n => (effs ++ [.writeNslcmop u, .writeNsr n], .ok ())

/-! ## ns_instantiate (lcm.py 697-1014) -/

/-- The RO identity of an artifact registered on behalf of an NS (lcm.py
739 for VNFDs, 761 for the NSD): the nsr id, a dot, and the descriptor id
truncated to its first 200 characters. -/
def ro_osm_id (nsrId descId : String) : String :=
  nsrId ++ "." ++ descId.take 200

/-- The observable state of the RO: registered vnfds and nsds as
(osm_id, uuid) pairs in creation order (`RO.get_list(kind,
filter_by={"osm_id": x})` returns the matching entries and the code takes
the first), plus a supply of fresh uuids for `RO.create`. -/
structure ROState where
  vnfds : List (String × String)
  nsds : List (String × String)
  fresh : Nat
deriving Repr, DecidableEq

def ROState.freshUuid (ro : ROState) : String × ROState :=
  ("uuid-" ++ toString ro.fresh, { ro with fresh := ro.fresh + 1 })

/-- State threaded through phases 2-4 of ns_instantiate: the RO, the
`_admin.deployed.RO` map being rebuilt, `_admin.nsState`, the number of
`RO.create` calls issued so far in this run, and the nsrs writes issued so
far. -/
structure RoPhaseState where
  ro : ROState
  lcmRO : NsrLcmRO
  nsState : Option String
  created : Nat
  writes : List Effect
deriving Repr, DecidableEq

/-- One iteration of `for vnfd_id, vnfd in needed_vnfd.items()` (lcm.py
736-754): look the RO id up by `osm_id`; reuse the uuid when present, else
translate and create, flipping `_admin.nsState` to INSTANTIATED; persist the
nsrs document after each descriptor. The `vnfd2RO` payload translation is
pure dict surgery plus cloud-init inlining and is not modelled (no claim
touches it). -/
def registerVnfdOne (nsrId : String) (st : RoPhaseState) (vnfdId : String) :
    RoPhaseState :=
  let det := "Creating vnfd=" ++ vnfdId ++ " at RO"
  let osmId := ro_osm_id nsrId vnfdId
  match lookupFirst st.ro.vnfds osmId with
  | some uuid =>
    { st with
      lcmRO := { st.lcmRO with vnfd_id := setAssoc st.lcmRO.vnfd_id vnfdId (some uuid) }
      writes := st.writes ++ [.writeNsrFull det "init" none st.nsState] }
  | none =>
    let p := st.ro.freshUuid
    { st with
      ro := { p.2 with vnfds := p.2.vnfds ++ [(osmId, p.1)] }
      lcmRO := { st.lcmRO with vnfd_id := setAssoc st.lcmRO.vnfd_id vnfdId (some p.1) }
      nsState := some "INSTANTIATED"
      created := st.created + 1
      writes := st.writes ++ [.writeNsrFull det "init" none (some "INSTANTIATED")] }

def registerVnfds (nsrId : String) (st : RoPhaseState) (vnfdIds : List String) :
    RoPhaseState :=
  vnfdIds.foldl (registerVnfdOne nsrId) st

/-- Phase 3 (lcm.py 756-779): the same idempotent lookup for the nsd, under
the same `osm_id` formula. The payload rewrite (deep copy, id override,
constituent `vnfd-id-ref` rewriting) is pure dict surgery and is not
modelled. -/
def registerNsd (nsrId nsdId : String) (st : RoPhaseState) : RoPhaseState :=
  let det := "Creating nsd=" ++ nsdId ++ " at RO"
  let osmId := ro_osm_id nsrId nsdId
  match lookupFirst st.ro.nsds osmId with
  | some uuid =>
    { st with
      lcmRO := { st.lcmRO with nsd_id := some uuid }
      writes := st.writes ++ [.writeNsrFull det "init" none st.nsState] }
  | none =>
    let p := st.ro.freshUuid
    { st with
      ro := { p.2 with nsds := p.2.nsds ++ [(osmId, p.1)] }
      lcmRO := { st.lcmRO with nsd_id := some p.1 }
      nsState := some "INSTANTIATED"
      created := st.created + 1
      writes := st.writes ++ [.writeNsrFull det "init" none (some "INSTANTIATED")] }

/-- The `if not RO_nsr_id:` creation arm of phase 4 (lcm.py 801-811):
`ns_params_2_RO` (which raises `LcmException` when a referenced VIM is not
ENABLED) then `RO.create("ns", ...)`, recording BUILD and INSTANTIATED. -/
def createNsAtRO (nsParams : Except PyError Unit) (st : RoPhaseState) :
    RoPhaseState × Option (String × PyError) :=
  match nsParams with
  | .error e => (st, some ("Creating ns at RO", e))
  | .ok () =>
    let p := st.ro.freshUuid
    let st :=
      { st with
        ro := p.2
        lcmRO := { st.lcmRO with nsr_id := some p.1, nsr_status := "BUILD" }
        nsState := some "INSTANTIATED"
        created := st.created + 1 }
    ({ st with
       writes := st.writes ++ [.writeNsrFull "Creating ns at RO" "init" none
         (some "INSTANTIATED")] }, none)

/-- Phase 4 (lcm.py 781-812): when `_admin.deployed.RO.nsr_id` is present,
`RO.show("ns", ...)`; a 404 nulls the id and falls through to creation; any
other `ROClientException` propagates; a shown NS in state ERROR is deleted
through a bare `RO.delete` with no handler at all (lcm.py 799), so any
`ROClientException` there, a 404 included, propagates to the outer handler.
A shown NS in any other state is reused. `showNs` is the combined outcome
of `RO.show` and `check_ns_status`. -/
def recoverNs (showNs : Except (Nat × String) String)
    (deleteNs : Option (Nat × String)) (nsParams : Except PyError Unit)
    (st : RoPhaseState) : RoPhaseState × Option (String × PyError) :=
  match st.lcmRO.nsr_id with
  | none => createNsAtRO nsParams st
  | some rid =>
    match showNs with
    | .error em =>
      if em.1 = 404 then
        createNsAtRO nsParams { st with lcmRO := { st.lcmRO with nsr_id := none } }
      else
        (st, some ("Looking for existing ns at RO", .roExc em.1 em.2))
    | .ok status =>
      let st := { st with lcmRO := { st.lcmRO with nsr_status := status } }
      if status = "ERROR" then
        match deleteNs with
        | some cm =>
          ({ st with writes := st.writes }, some ("Deleting ns at RO. RO_ns_id=" ++ rid,
            .roExc cm.1 cm.2))
        | none => createNsAtRO nsParams { st with lcmRO := { st.lcmRO with nsr_id := none } }
      else
        ({ st with
           writes := st.writes ++ [.writeNsrFull "Looking for existing ns at RO" "init"
             none st.nsState] }, none)

/-- Phases 2-4 of ns_instantiate in source order. -/
def roPhases (nsrId nsdId : String) (vnfdIds : List String)
    (showNs : Except (Nat × String) String) (deleteNs : Option (Nat × String))
    (nsParams : Except PyError Unit) (st : RoPhaseState) :
    RoPhaseState × Option (String × PyError) :=
  recoverNs showNs deleteNs nsParams (registerNsd nsrId nsdId (registerVnfds nsrId st vnfdIds))

/-- Outcome of the load block of ns_instantiate (lcm.py 706-731): the fetch
that failed, or the data the later phases need. `nsState0` is
`_admin.nsState` as fetched (needed for the whole-document writes). -/
inductive Phase1Result where
  | failNslcmop (e : PyError)
  | failNsr (e : PyError)
  | failLoad (step : String) (e : PyError) (nsState0 : Option String)
  | loaded (nsdId : String) (vnfdIds : List String) (deployed : Option NsrLcmRO)
      (nsState0 : Option String)
deriving Repr, DecidableEq

/-- External-call outcomes of one ns_instantiate run. `laterPhases`
summarizes phases 5-8 (VNFR backfill, the ACTIVE poll loop, VNFR
enrichment, the VCA fan-out): `.ok n` means they completed and dispatched
`n` charms (`number_to_configure`); `.error (step, e)` means the step named
`step` raised `e`. Their internal writes (vnfrs updates, BUILD progress
texts) are not modelled; no claim depends on them. -/
structure NsInstEnv where
  nsrId : String
  phase1 : Phase1Result
  ro0 : ROState
  showNs : Except (Nat × String) String
  deleteNs : Option (Nat × String)
  nsParams : Except PyError Unit
  laterPhases : Except (String × PyError) Nat
deriving Repr

structure NsInstResult where
  effects : List Effect
  exc : Option PyError
  finalState : Option RoPhaseState
deriving Repr, DecidableEq

/-- The error epilogue of ns_instantiate (lcm.py 1004-1014): with `db_nsr`
fetched, write the whole nsrs document with `detailed-status = "ERROR
{step}: {exc}"` and `operational-status = "failed"`, then the nslcmops
document with `FAILED {step}: {exc}`, FAILED and `statusEnteredTime`. -/
def instFailureWrites (step msg : String) (nsState : Option String) : List Effect :=
  [.writeNsrFull ("ERROR " ++ step ++ ": " ++ msg) "failed" none nsState,
   .writeNslcmop ⟨"FAILED " ++ step ++ ": " ++ msg, some "FAILED", true⟩]

/-- ns_instantiate (lcm.py 697-1014). `db_nsr` and `db_nslcmop` are
set to None up front (701-702), so the error epilogue only writes the
documents that were fetched: a failed nslcmop fetch writes nothing, a
failed nsr fetch writes only the nslcmops FAILED record. Phase 9 (lcm.py
982-993) does not store `statusEnteredTime`. -/
def ns_instantiate (env : NsInstEnv) : NsInstResult :=
  match env.phase1 with
  | .failNslcmop e => ⟨[], some e, none⟩
  | .failNsr e =>
    ⟨[.writeNslcmop ⟨"FAILED Getting nsr=" ++ env.nsrId ++ " from db: " ++ e.str,
        some "FAILED", true⟩], some e, none⟩
  | .failLoad step e nsState0 =>
    ⟨instFailureWrites step e.str nsState0, some e, none⟩
  | .loaded nsdId vnfdIds deployed nsState0 =>
    let lcm0 := deployed.getD ⟨none, none, [], "SCHEDULED"⟩
    let st0 : RoPhaseState := ⟨env.ro0, lcm0, nsState0, 0, []⟩
    let r := roPhases env.nsrId nsdId vnfdIds env.showNs env.deleteNs env.nsParams st0
    match r.2 with
    | some se =>
      ⟨r.1.writes ++ instFailureWrites se.1 se.2.str r.1.nsState, some se.2, some r.1⟩
    | none =>
      match env.laterPhases with
      | .error (step, e) =>
        ⟨r.1.writes ++ instFailureWrites step e.str r.1.nsState, some e, some r.1⟩
      | .ok n =>
        if n > 0 then
          ⟨r.1.writes ++
            [.writeNsrFull ("configuring: init: " ++ toString n) "running"
               (some "configuring") r.1.nsState,
             .writeNslcmop ⟨"configuring: init: " ++ toString n, none, false⟩],
            none, some r.1⟩
        else
          ⟨r.1.writes ++
            [.writeNsrFull "done" "running" (some "configured") r.1.nsState,
             .writeNslcmop ⟨"done", some "COMPLETED", false⟩],
            none, some r.1⟩

/-! ## Helper lemmas -/

theorem lookupFirst_append_left {α β : Type} [DecidableEq α]
    {l : List (α × β)} (l' : List (α × β)) {k : α} {v : β}
    (h : lookupFirst l k = some v) : lookupFirst (l ++ l') k = some v := by
  induction l with
  | nil => simp [lookupFirst] at h
  | cons e rest ih =>
    obtain ⟨a, b⟩ := e
    by_cases he : a = k
    · simpa [lookupFirst, he] using h
    · simp only [lookupFirst, he, if_false] at h
      simp only [List.cons_append, lookupFirst, he, if_false]
      exact ih h

theorem lookupFirst_append_of_none {α β : Type} [DecidableEq α]
    {l : List (α × β)} (l' : List (α × β)) {k : α}
    (h : lookupFirst l k = none) : lookupFirst (l ++ l') k = lookupFirst l' k := by
  induction l with
  | nil => rfl
  | cons e rest ih =>
    obtain ⟨a, b⟩ := e
    by_cases he : a = k
    · simp [lookupFirst, he] at h
    · simp only [lookupFirst, he, if_false] at h
      simp only [List.cons_append, lookupFirst, he, if_false]
      exact ih h

theorem lookupFirst_setAssoc_self {α β : Type} [DecidableEq α]
    (m : List (α × β)) (k : α) (v : β) :
    lookupFirst (setAssoc m k v) k = some v := by
  induction m with
  | nil => simp [setAssoc, lookupFirst]
  | cons e rest ih =>
    obtain ⟨a, b⟩ := e
    by_cases he : a = k
    · simp [setAssoc, lookupFirst, he]
    · simp [setAssoc, lookupFirst, he, ih]

theorem lookupFirst_setAssoc_ne {α β : Type} [DecidableEq α]
    (m : List (α × β)) {k k' : α} (v : β) (h : k ≠ k') :
    lookupFirst (setAssoc m k' v) k = lookupFirst m k := by
  have h' : ¬ (k' = k) := fun hh => h hh.symm
  induction m with
  | nil => simp [setAssoc, lookupFirst, h']
  | cons e rest ih =>
    obtain ⟨a, b⟩ := e
    by_cases he : a = k'
    · simp [setAssoc, lookupFirst, he, h']
    · simp [setAssoc, lookupFirst, he, ih]

theorem setAssoc_self_eq {α β : Type} [DecidableEq α]
    {m : List (α × β)} {k : α} {v : β} (h : lookupFirst m k = some v) :
    setAssoc m k v = m := by
  induction m with
  | nil => simp [lookupFirst] at h
  | cons e rest ih =>
    obtain ⟨a, b⟩ := e
    by_cases he : a = k
    · simp only [lookupFirst, he, if_true, Option.some.injEq] at h
      simp [setAssoc, he, h]
    · simp only [lookupFirst, he, if_false] at h
      simp [setAssoc, he, ih h]

theorem lookupFirst_map_snd {α β γ : Type} [DecidableEq α]
    (l : List (α × β)) (f : β → γ) (k : α) :
    lookupFirst (l.map fun p => (p.1, f p.2)) k = (lookupFirst l k).map f := by
  induction l with
  | nil => simp [lookupFirst]
  | cons e rest ih =>
    by_cases he : e.1 = k
    · simp [lookupFirst, he]
    · simp [lookupFirst, he, ih]

theorem lastNslcmopWrite_snoc₂ (xs : List Effect) (u : OpUpd) (n : NsrUpd) :
    lastNslcmopWrite (xs ++ [.writeNslcmop u, .writeNsr n]) = some u := by
  simp [lastNslcmopWrite, List.foldl_append]

theorem lastNslcmopWrite_snoc_nsrFull (xs : List Effect) (d o : String)
    (c ns : Option String) (u : OpUpd) :
    lastNslcmopWrite (xs ++ [.writeNsrFull d o c ns, .writeNslcmop u]) = some u := by
  simp [lastNslcmopWrite, List.foldl_append]

/-- The aggregation loop can never collect an error text: the append sits in
an `elif` behind `vca_status != "active"`, so it requires a status that is
simultaneously "active" and one of "error"/"blocked". -/
theorem n2vcAggregate_errorTexts_nil (i : String) (vca : List (String × VcaInfo)) :
    (n2vcAggregate i vca).errorTexts = [] := by
  suffices h : ∀ (l : List (String × VcaInfo)) (st : AggState),
      (l.foldl (n2vcAggStep i) st).errorTexts = st.errorTexts by
    exact h vca ⟨true, [], []⟩
  intro l
  induction l with
  | nil => intro st; rfl
  | cons e rest ih =>
    intro st
    simp only [List.foldl_cons]
    rw [ih]
    by_cases ha : e.2.operationalStatus = "active"
    · have hne : ¬ (e.2.operationalStatus ≠ "active") := by simpa using ha
      by_cases hb : e.2.operationalStatus = "error" ∨ e.2.operationalStatus = "blocked"
      · rcases hb with hb | hb <;> rw [hb] at ha <;> simp at ha
      · simp [n2vcAggStep, hne, hb]
    · simp [n2vcAggStep, ha]

/-! ## Claim theorems -/

/-- C1: the claim states that whenever the aggregation runs with at least
one VCA entry in operational-status error or blocked, the callback records
config-status "failed", detailed-status "fail configuring ..." and
operationState FAILED_TEMP. The code cannot do this: the error-collecting
branch is an `elif` of `vca_status != "active"` and is unreachable, so the
error list is always empty (first conjunct) and a status push to "error"
lands in the "configuring" bucket with the nslcmops operationState
untouched (remaining conjuncts evaluate the callback at such an input). -/
theorem C1_n2vc_error_status_not_failed :
    (∀ (i : String) (vca : List (String × VcaInfo)),
      (n2vcAggregate i vca).errorTexts = []) ∧
    n2vc_callback "instantiate" "1" [("1", ⟨"init", ""⟩)] (.statusPush "error" "boom")
      = ⟨[("1", ⟨"error", "boom"⟩)],
         some ("configuring: error: 1", "configuring: error: 1"),
         some ⟨"configuring: error: 1", none, false⟩⟩ ∧
    n2vc_callback "instantiate" "1" [("1", ⟨"init", ""⟩), ("2", ⟨"blocked", "stuck"⟩)]
        (.taskDoneExc "crash")
      = ⟨[("1", ⟨"error", "crash"⟩), ("2", ⟨"blocked", "stuck"⟩)],
         some ("configuring: error: 1, blocked: 1",
               "configuring: error: 1, blocked: 1"),
         some ⟨"configuring: error: 1, blocked: 1", none, false⟩⟩ :=
  ⟨n2vcAggregate_errorTexts_nil, by decide, by decide⟩

/-- C3: ns_terminate on an nsr whose `_admin.nsState` is NOT_INSTANTIATED
performs no RO or VCA calls and writes nothing, as the claim says, but it
does not return cleanly: the `return` at lcm.py 1032 triggers the `finally`
block, which tests the never-assigned local `db_nslcmop_update` and raises
`UnboundLocalError` (a NameError subclass). -/
theorem C3_terminate_not_instantiated :
    ns_terminate ⟨.ok false,
        .ok ("NOT_INSTANTIATED", ⟨⟨some "ro-ns", some "ro-nsd", [("A", some "ro-A")], "ACTIVE"⟩,
          [("1", some ⟨"default", "app-1"⟩)]⟩),
        none, none, [], []⟩
      = ([], .error .unboundLocal) := by rfl

/-- C4: the claim says the dispatch loop tolerates 30 consecutive errors
during startup (with 5 s back-off) and 8 afterwards (2 s). By Python
precedence the exit condition `consecutive_errors == 8 if not first_start
else 30` evaluates to the truthy integer 30 during startup, so the very
first startup error re-raises; the steady-state half of the claim holds. -/
theorem C4_kafka_read_tolerance :
    kafka_read_on_error 0 true = none ∧
    kafka_read_on_error 0 false = some (1, 2) ∧
    kafka_read_on_error 7 false = some (8, 2) ∧
    kafka_read_on_error 8 false = none := by decide

/-- C5 counterexample: the claim says the prober sleeps 5 s whenever
`pings_not_received > 0`. In the state where a ping has round-tripped once
(`kafka_has_received`) but three pings are currently outstanding, the code
sleeps 120 s, not 5. -/
theorem C5_counterexample :
    (⟨3, true⟩ : PingState).pingsNotReceived > 0 ∧
    (kafka_ping_iter ⟨3, true⟩ false).waitTime = 120 ∧
    (kafka_ping_iter ⟨3, true⟩ false).waitTime ≠ 5 := by decide

/-- C5 amended: every iteration publishes the self-ping; the sleep is 5 s
until the first ping has ever round-tripped (`kafka_has_received` latched)
and 120 s from then on, regardless of `pings_not_received`; the prober
raises in the iteration in which the post-sleep counter exceeds 10. -/
theorem C5_kafka_ping_amended (st : PingState) (p : Bool) :
    (kafka_ping_iter st p).published = true ∧
    (kafka_ping_iter st p).waitTime = (if st.kafkaHasReceived then 120 else 5) ∧
    ((kafka_ping_iter st p).raised ↔ (kafka_ping_iter st p).next.pingsNotReceived > 10) := by
  refine ⟨rfl, ?_, ?_⟩
  · cases h : st.kafkaHasReceived <;> simp [kafka_ping_iter, h]
  · simp [kafka_ping_iter]

/-- C8: the outcome mapping of the claim is wrong on two branches. For a
cancelled task the persisted update carries `result_detail = ""`, not "Task
has been cancelled" (that text is assigned to the in-memory `db_nslcmop`
dict, which ns_action never persists). For a task that completed with an
exception, the local `exc` is reused for `task.exception()`, so the
`finally` block overwrites the update with `FAILED {step}: {exc}` where
`step` still names the database fetch. The validation half of the claim
holds: an inactive charm raises LcmException and `ExecutePrimitive` is
never invoked (last conjunct). -/
theorem C8_ns_action_mapping :
    ns_action ⟨.ok "1", .ok [("1", some ⟨some "default", some "app-1", "active"⟩)], .cancelled⟩
      = ⟨true, some ⟨"", some "FAILED", true⟩⟩ ∧
    ("" : String) ≠ "Task has been cancelled" ∧
    ns_action ⟨.ok "1", .ok [("1", some ⟨some "default", some "app-1", "active"⟩)], .doneExc "boom"⟩
      = ⟨true, some ⟨"FAILED Getting information from database: boom", some "FAILED", true⟩⟩ ∧
    ns_action ⟨.ok "1", .ok [("1", some ⟨some "default", some "app-1", "blocked"⟩)], .doneOk⟩
      = ⟨false, some ⟨"FAILED Getting information from database: " ++
          "charm for member_vnf_index=1 operational_status=blocked not active",
          some "FAILED", true⟩⟩ := by
  refine ⟨by decide, by decide, by decide, by decide⟩

/-- C10: cancel_tasks with a topic outside ns, vim_account, sdn raises
`UnboundLocalError` (a NameError subclass) because the `lcm_tasks` local is
never bound; for the known topics a missing (or empty, which is equally
falsy) entry returns with the registry untouched; otherwise the entry is
replaced by the empty mapping. -/
theorem C10_cancel_tasks :
    (∀ topic id r, topic ≠ "ns" → topic ≠ "vim_account" → topic ≠ "sdn" →
      cancel_tasks topic id r = .error .unboundLocal) ∧
    (∀ id r, lookupFirst r.lcm_ns_tasks id = none → cancel_tasks "ns" id r = .ok r) ∧
    (∀ id r, lookupFirst r.lcm_vim_tasks id = none →
      cancel_tasks "vim_account" id r = .ok r) ∧
    (∀ id r, lookupFirst r.lcm_sdn_tasks id = none → cancel_tasks "sdn" id r = .ok r) ∧
    (∀ id r om, lookupFirst r.lcm_ns_tasks id = some om → om ≠ [] →
      cancel_tasks "ns" id r
        = .ok { r with lcm_ns_tasks := setAssoc r.lcm_ns_tasks id [] } ∧
      lookupFirst (setAssoc r.lcm_ns_tasks id []) id = some []) := by
  refine ⟨?_, ?_, ?_, ?_, ?_⟩
  · intro topic id r h1 h2 h3
    simp [cancel_tasks, h1, h2, h3]
  · intro id r h
    simp [cancel_tasks, cancelIn, h]
  · intro id r h
    simp [cancel_tasks, cancelIn, h]
  · intro id r h
    simp [cancel_tasks, cancelIn, h]
  · intro id r om h hne
    refine ⟨?_, lookupFirst_setAssoc_self _ _ _⟩
    simp [cancel_tasks, cancelIn, h, hne]

/-- C10 witness: the three behaviors at concrete inputs. -/
theorem C10_cancel_tasks_witness :
    cancel_tasks "topic-x" "e" ⟨[], [], []⟩ = .error .unboundLocal ∧
    cancel_tasks "ns" "e" ⟨[], [], []⟩ = .ok ⟨[], [], []⟩ ∧
    cancel_tasks "ns" "e" ⟨[("e", [(1, ["ns_instantiate"])])], [], []⟩
      = .ok ⟨[("e", [])], [], []⟩ := by
  refine ⟨C10_cancel_tasks.1 "topic-x" "e" _ (by decide) (by decide) (by decide),
          C10_cancel_tasks.2.1 "e" _ (by rfl), ?_⟩
  exact (C10_cancel_tasks.2.2.2.2 "e" ⟨[("e", [(1, ["ns_instantiate"])])], [], []⟩
    [(1, ["ns_instantiate"])] (by rfl) (by decide)).1

/-- C9: update_db and update_db_2 swallow DbException, so a failed database
write never propagates (first two conjuncts); consequently a workflow
runs the same control flow whether or not its writes are applied, and a run
whose writes all fail still reaches the same exit having persisted
nothing (vim_create as the representative workflow, the cited
source). -/
theorem C9_update_db_best_effort :
    (∀ r, update_db r = .ok ()) ∧
    (∀ r, update_db_2 r = .ok ()) ∧
    (∀ (env : VimCreateEnv) (b₁ b₂ : Bool), vim_create { env with dbApplies := b₁ }
      = vim_create { env with dbApplies := b₂ }) ∧
    (∀ (env : VimCreateEnv), vim_create_applied { env with dbApplies := false } = []) := by
  refine ⟨?_, ?_, ?_, ?_⟩
  · intro r; cases r <;> rfl
  · intro r; cases r <;> rfl
  · intro env b₁ b₂; cases env; rfl
  · intro env; cases env; rfl

/-- Phase 4 cannot raise when the existing NS shows in a non-ERROR state and
`ns_params_2_RO` succeeds. -/
theorem recoverNs_ok_of_not_error {s : String} (hs : s ≠ "ERROR")
    (del : Option (Nat × String)) (st : RoPhaseState) :
    (recoverNs (.ok s) del (.ok ()) st).2 = none := by
  rcases hh : st.lcmRO.nsr_id with _ | rid
  · simp [recoverNs, createNsAtRO, hh]
  · simp [recoverNs, createNsAtRO, hh, hs]

/-- C6 counterexample: the claim says every workflow writes a success or
ERROR/FAILED record even when the initial database fetch raises. A
vim_create run whose `db.get_one` raises DbException ends with no database
write at all (the error epilogue is guarded by `if exc and db_vim` and
`db_vim` is still None). -/
theorem C6_counterexample :
    vim_create ⟨.error (.dbExc "database unavailable"), none, .ok none, .ok "RO-1",
        .ok (), true⟩
      = ⟨[], none⟩ := by rfl

/-- An RO delete outcome restricted to success or HTTP 404: `none` is
success, `some m` is an `ROClientException` with http_code 404 and
message `m`. -/
def asDel404 : Option String → Option (Nat × String) :=
  fun o => o.map fun m => (404, m)

theorem deleteNsStep_404_fd (o : Option String) (i : Option String) (s : String) :
    (deleteNsStep (asDel404 o) i s).fd = [] := by
  rcases i with _ | rid
  · rfl
  · rcases o with _ | m <;> simp [deleteNsStep, asDel404]

theorem deleteNsdStep_404_fd (o : Option String) (i : Option String) :
    (deleteNsdStep (asDel404 o) i).2.1 = [] := by
  rcases i with _ | rid
  · rfl
  · rcases o with _ | m <;> simp [deleteNsdStep, asDel404]

theorem getRoDel_map404 (ov : List (String × Option String)) (k : String) :
    getRoDel (ov.map fun p => (p.1, asDel404 p.2)) k
      = asDel404 ((lookupFirst ov k).getD none) := by
  rw [getRoDel, lookupFirst_map_snd]
  rcases h : lookupFirst ov k with _ | o <;> simp [asDel404]

theorem deleteVnfdOne_404_fd (ov : List (String × Option String))
    (acc : VnfdFoldOut) (e : String × Option String) :
    (deleteVnfdOne (ov.map fun p => (p.1, asDel404 p.2)) acc e).fd = acc.fd := by
  obtain ⟨k, val⟩ := e
  rcases val with _ | rid
  · rfl
  · rw [deleteVnfdOne]
    simp only [getRoDel_map404]
    rcases h : (lookupFirst ov k).getD none with _ | m <;> simp [asDel404]

theorem deleteVnfds_404_fd (ov : List (String × Option String))
    (entries : List (String × Option String)) :
    (deleteVnfds (ov.map fun p => (p.1, asDel404 p.2)) entries).fd = [] := by
  suffices h : ∀ (l : List (String × Option String)) (acc : VnfdFoldOut),
      (l.foldl (deleteVnfdOne (ov.map fun p => (p.1, asDel404 p.2))) acc).fd
        = acc.fd by
    exact h entries ⟨[], [], [], none⟩
  intro l
  induction l with
  | nil => intro acc; rfl
  | cons e rest ih =>
    intro acc
    simp only [List.foldl_cons]
    rw [ih, deleteVnfdOne_404_fd]

theorem vcaWait_empty_fd (v : List (String × Option VcaDeployInfo))
    (ts : List (String × VcaDeployInfo)) :
    (vcaWait [] v ts).fd = [] ∧ (vcaWait [] v ts).excv = none := by
  suffices h : ∀ (l : List (String × VcaDeployInfo)) (acc : VcaWaitOut),
      acc.excv = none →
      (l.foldl (vcaWaitOne []) acc).fd = acc.fd ∧
      (l.foldl (vcaWaitOne []) acc).excv = none by
    exact h ts ⟨[], v, none⟩ rfl
  intro l
  induction l with
  | nil => intro acc hacc; exact ⟨rfl, hacc⟩
  | cons e rest ih =>
    intro acc hacc
    simp only [List.foldl_cons]
    have hstep : vcaWaitOne [] acc e = ⟨acc.fd, setAssoc acc.vca e.1 none, none⟩ := by
      rfl
    rw [hstep]
    exact ih _ rfl

set_option maxRecDepth 4000 in
/-- C2 counterexample: in the recovery path of ns_instantiate, an NS found in
ERROR state is deleted through a bare `RO.delete` (lcm.py 799) with no 404
handler, so an HTTP 404 there propagates and the run ends with the nslcmops
record FAILED — contradicting the claim that a 404 from RO.delete never
makes a workflow end in an ERROR or FAILED state. -/
theorem C2_counterexample :
    (ns_instantiate ⟨"ns1",
        .loaded "nsd1" [] (some ⟨some "ro-ns", some "ro-nsd", [], "ACTIVE"⟩)
          (some "INSTANTIATED"),
        ⟨[], [("ns1.nsd1", "ro-nsd")], 0⟩,
        .ok "ERROR", some (404, "not found"), .ok (), .ok 0⟩).exc
      = some (.roExc 404 "not found") ∧
    lastNslcmopWrite (ns_instantiate ⟨"ns1",
        .loaded "nsd1" [] (some ⟨some "ro-ns", some "ro-nsd", [], "ACTIVE"⟩)
          (some "INSTANTIATED"),
        ⟨[], [("ns1.nsd1", "ro-nsd")], 0⟩,
        .ok "ERROR", some (404, "not found"), .ok (), .ok 0⟩).effects
      = some ⟨"FAILED Deleting ns at RO. RO_ns_id=ro-ns: not found",
          some "FAILED", true⟩ := by
  constructor <;> rfl

/-- C2 amended: an HTTP 404 from `RO.delete` is treated as already gone in
vim_delete, sdn_delete and ns_terminate and never by itself yields an
ERROR/FAILED record there (first four conjuncts: the vim/sdn rows are
removed without an error write; ns_terminate with every RO delete answering
404 and all charm removals succeeding completes with nslcmops COMPLETED).
In ns_instantiate, however, the recovery deletion of an ERROR-state NS has
no 404 handler: the exception propagates (last conjunct) and the workflow
ends FAILED. -/
theorem C2_delete_404_amended :
    (∀ roId m₁ m₂, vim_delete ⟨.ok (some roId), some (404, m₁), some (404, m₂), .ok ()⟩
      = ⟨true, true, true, none⟩) ∧
    (∀ roId m, vim_delete ⟨.ok (some roId), none, some (404, m), .ok ()⟩
      = ⟨true, true, true, none⟩) ∧
    (∀ roId m, sdn_delete ⟨.ok (some roId), some (404, m), .ok ()⟩
      = ⟨false, true, true, none⟩) ∧
    (∀ (lcm0 : NsrLcm) (o₁ o₂ : Option String) (ov : List (String × Option String)),
      (ns_terminate ⟨.ok false, .ok ("INSTANTIATED", lcm0), asDel404 o₁, asDel404 o₂,
          ov.map (fun p => (p.1, asDel404 p.2)), []⟩).2 = .ok () ∧
      lastNslcmopWrite (ns_terminate ⟨.ok false, .ok ("INSTANTIATED", lcm0),
          asDel404 o₁, asDel404 o₂, ov.map (fun p => (p.1, asDel404 p.2)), []⟩).1
        = some ⟨"Done", some "COMPLETED", true⟩) ∧
    (∀ (st : RoPhaseState) (rid m : String) (np : Except PyError Unit),
      (recoverNs (.ok "ERROR") (some (404, m)) np
          { st with lcmRO := { st.lcmRO with nsr_id := some rid } }).2
        = some ("Deleting ns at RO. RO_ns_id=" ++ rid, .roExc 404 m)) := by
  refine ⟨?_, ?_, ?_, ?_, ?_⟩
  · intro roId m₁ m₂; rfl
  · intro roId m; rfl
  · intro roId m; rfl
  · intro lcm0 o₁ o₂ ov
    have hfd := deleteVnfds_404_fd ov lcm0.RO.vnfd_id
    have hvca := vcaWait_empty_fd lcm0.VCA (vcaTasksOf lcm0.VCA)
    constructor
    · simp only [ns_terminate]
      rw [deleteNsStep_404_fd, deleteNsdStep_404_fd, hfd, hvca.1, hvca.2]
      simp
    · simp only [ns_terminate]
      rw [deleteNsStep_404_fd, deleteNsdStep_404_fd, hfd, hvca.1, hvca.2]
      simp [lastNslcmopWrite, List.foldl_append]
  · intro st rid m np; rfl

/-! ## No-nslcmops-write lemmas for the ns_terminate autoremove path -/

theorem lastNslcmop_foldl_skip (l : List Effect)
    (h : ∀ u, Effect.writeNslcmop u ∉ l) (acc : Option OpUpd) :
    List.foldl (fun acc e => match e with | .writeNslcmop u => some u | _ => acc)
      acc l = acc := by
  induction l generalizing acc with
  | nil => rfl
  | cons e rest ih =>
    have hrest : ∀ u, Effect.writeNslcmop u ∉ rest :=
      fun u hu => h u (List.mem_cons_of_mem e hu)
    simp only [List.foldl_cons]
    rw [ih hrest]
    cases e
    case writeNslcmop u => exact absurd (List.mem_cons_self _ _) (h u)
    all_goals rfl

theorem lastNslcmopWrite_eq_none {l : List Effect}
    (h : ∀ u, Effect.writeNslcmop u ∉ l) : lastNslcmopWrite l = none :=
  lastNslcmop_foldl_skip l h none

theorem no_op_write_deleteNsStep (res : Option (Nat × String)) (i : Option String)
    (s : String) (u : OpUpd) : Effect.writeNslcmop u ∉ (deleteNsStep res i s).effects := by
  rcases i with _ | rid
  · simp [deleteNsStep]
  · rcases res with _ | cm
    · simp [deleteNsStep]
    · obtain ⟨c, m⟩ := cm
      by_cases h4 : c = 404
      · simp [deleteNsStep, h4]
      · by_cases h9 : c = 409 <;> simp [deleteNsStep, h4, h9]

theorem no_op_write_deleteNsdStep (res : Option (Nat × String)) (i : Option String)
    (u : OpUpd) : Effect.writeNslcmop u ∉ (deleteNsdStep res i).1 := by
  rcases i with _ | rid
  · simp [deleteNsdStep]
  · rcases res with _ | cm
    · simp [deleteNsdStep]
    · obtain ⟨c, m⟩ := cm
      by_cases h4 : c = 404
      · simp [deleteNsdStep, h4]
      · by_cases h9 : c = 409 <;> simp [deleteNsdStep, h4, h9]

theorem no_op_write_deleteVnfdOne (rds : List (String × Option (Nat × String)))
    (acc : VnfdFoldOut) (e : String × Option String) (u : OpUpd)
    (h : Effect.writeNslcmop u ∈ (deleteVnfdOne rds acc e).effects) :
    Effect.writeNslcmop u ∈ acc.effects := by
  obtain ⟨k, val⟩ := e
  rcases val with _ | rid
  · simpa [deleteVnfdOne] using h
  · rcases hg : getRoDel rds k with _ | cm
    · simpa [deleteVnfdOne, hg] using h
    · obtain ⟨c, m⟩ := cm
      by_cases h4 : c = 404
      · simpa [deleteVnfdOne, hg, h4] using h
      · by_cases h9 : c = 409
        · simpa [deleteVnfdOne, hg, h4, h9] using h
        · simpa [deleteVnfdOne, hg, h4, h9] using h

theorem no_op_write_deleteVnfds (rds : List (String × Option (Nat × String)))
    (entries : List (String × Option String)) (u : OpUpd) :
    Effect.writeNslcmop u ∉ (deleteVnfds rds entries).effects := by
  suffices hs : ∀ (l : List (String × Option String)) (acc : VnfdFoldOut),
      Effect.writeNslcmop u ∈ (l.foldl (deleteVnfdOne rds) acc).effects →
      Effect.writeNslcmop u ∈ acc.effects by
    intro h
    have := hs entries ⟨[], [], [], none⟩ h
    simp at this
  intro l
  induction l with
  | nil => intro acc h; exact h
  | cons e rest ih =>
    intro acc h
    exact no_op_write_deleteVnfdOne _ _ _ _ (ih _ h)

set_option maxRecDepth 4000 in
/-- C6 amended: whether an outcome record is written depends on the
workflow and on how far it got.
* A workflow whose initial entity fetch raises writes no record at all for
  its entity (conjuncts 1, 3, 8, 10, 12, 14, 16, 18, 20), except that
  ns_instantiate and ns_terminate, whose load phase does two fetches, write
  the nslcmops FAILED record when the nslcmop fetch succeeded and the nsr
  fetch failed (conjuncts 4 and 21, ns_terminate then raising
  UnboundLocalError out of its finally block).
* With the initial fetch succeeded: vim_create, vim_edit, sdn_create and
  sdn_edit always end with an ENABLED or ERROR record (conjuncts 2, 9, 11,
  13); vim_delete and sdn_delete either remove the row or record ERROR
  (conjuncts 15, 17); ns_action always persists an nslcmops record with
  FAILED or COMPLETED and statusEnteredTime (conjunct 19); ns_instantiate
  ends with an nslcmops record — FAILED on any later failure, COMPLETED or
  a configuring progress record on success (conjuncts 5-7).
* ns_terminate keeps the guarantee only on its main path (nsState not
  NOT_INSTANTIATED, autoremove off), where it always ends with a FAILED or
  COMPLETED nslcmops record (conjunct 23); its NOT_INSTANTIATED early
  return writes nothing and raises UnboundLocalError (conjunct 22), and its
  autoremove path deletes the rows, writes no outcome record and raises
  UnboundLocalError (conjunct 24). -/
theorem C6_outer_try_amended :
    (∀ (env : VimCreateEnv) (e : PyError),
      vim_create { env with fetchVim := .error e } = ⟨[], none⟩) ∧
    (∀ (env : VimCreateEnv), ∃ w,
      (vim_create { env with fetchVim := .ok () }).writes.getLast? = some w ∧
      (w.operationalState = some "ENABLED" ∨ w.operationalState = some "ERROR")) ∧
    (∀ (env : NsInstEnv) (e : PyError),
      (ns_instantiate { env with phase1 := .failNslcmop e }).effects = []) ∧
    (∀ (env : NsInstEnv) (e : PyError),
      (ns_instantiate { env with phase1 := .failNsr e }).effects
        = [.writeNslcmop ⟨"FAILED Getting nsr=" ++ env.nsrId ++ " from db: " ++ e.str,
            some "FAILED", true⟩]) ∧
    (∀ (env : NsInstEnv) (step : String) (e : PyError) (ns0 : Option String),
      lastNslcmopWrite (ns_instantiate { env with phase1 := .failLoad step e ns0 }).effects
        = some ⟨"FAILED " ++ step ++ ": " ++ e.str, some "FAILED", true⟩) ∧
    (∀ (env : NsInstEnv) (nsdId : String) (vnfdIds : List String)
        (dep : Option NsrLcmRO) (ns0 : Option String) (step : String) (e : PyError),
      ∃ u, lastNslcmopWrite (ns_instantiate { env with
          phase1 := .loaded nsdId vnfdIds dep ns0, showNs := .ok "ACTIVE",
          nsParams := .ok (), laterPhases := .error (step, e) }).effects = some u ∧
        u.operationState = some "FAILED") ∧
    (∀ (env : NsInstEnv) (nsdId : String) (vnfdIds : List String)
        (dep : Option NsrLcmRO) (ns0 : Option String) (n : Nat),
      (ns_instantiate { env with
          phase1 := .loaded nsdId vnfdIds dep ns0, showNs := .ok "ACTIVE",
          nsParams := .ok (), laterPhases := .ok n }).exc = none ∧
      ∃ u, lastNslcmopWrite (ns_instantiate { env with
          phase1 := .loaded nsdId vnfdIds dep ns0, showNs := .ok "ACTIVE",
          nsParams := .ok (), laterPhases := .ok n }).effects = some u ∧
        (u.operationState = some "COMPLETED" ∨ u.operationState = none)) ∧
    (∀ (env : VimEditEnv) (e : PyError),
      vim_edit { env with fetchVim := .error e } = ⟨[], none⟩) ∧
    (∀ (env : VimEditEnv) (o : Option String), ∃ w,
      (vim_edit { env with fetchVim := .ok o }).writes = [w] ∧
      (w.operationalState = some "ENABLED" ∨ w.operationalState = some "ERROR")) ∧
    (∀ (env : SdnCreateEnv) (e : PyError),
      sdn_create { env with fetchSdn := .error e } = ⟨[], none⟩) ∧
    (∀ (env : SdnCreateEnv), ∃ w,
      (sdn_create { env with fetchSdn := .ok () }).writes = [w] ∧
      (w.operationalState = some "ENABLED" ∨ w.operationalState = some "ERROR")) ∧
    (∀ (env : SdnEditEnv) (e : PyError),
      sdn_edit { env with fetchSdn := .error e } = ⟨[], none⟩) ∧
    (∀ (env : SdnEditEnv) (o : Option String), ∃ w,
      (sdn_edit { env with fetchSdn := .ok o }).writes = [w] ∧
      (w.operationalState = some "ENABLED" ∨ w.operationalState = some "ERROR")) ∧
    (∀ (env : VimDeleteEnv) (e : PyError),
      vim_delete { env with fetchVim := .error e } = ⟨false, false, false, none⟩) ∧
    (∀ (env : VimDeleteEnv) (o : Option String),
      (vim_delete { env with fetchVim := .ok o }).rowDeleted = true ∨
      (vim_delete { env with fetchVim := .ok o }).errorWrite.isSome = true) ∧
    (∀ (env : SdnDeleteEnv) (e : PyError),
      sdn_delete { env with fetchSdn := .error e } = ⟨false, false, false, none⟩) ∧
    (∀ (env : SdnDeleteEnv) (o : Option String),
      (sdn_delete { env with fetchSdn := .ok o }).rowDeleted = true ∨
      (sdn_delete { env with fetchSdn := .ok o }).errorWrite.isSome = true) ∧
    (∀ (env : NsActionEnv) (e : PyError),
      ns_action { env with fetchNslcmop := .error e } = ⟨false, none⟩) ∧
    (∀ (env : NsActionEnv) (vIdx : String),
      ((ns_action { env with fetchNslcmop := .ok vIdx }).write.map
          (fun u => u.operationState) = some (some "FAILED") ∨
       (ns_action { env with fetchNslcmop := .ok vIdx }).write.map
          (fun u => u.operationState) = some (some "COMPLETED")) ∧
      (ns_action { env with fetchNslcmop := .ok vIdx }).write.map
          (fun u => u.timeSet) = some true) ∧
    (∀ (env : NsTermEnv) (e : PyError),
      ns_terminate { env with fetchNslcmop := .error e } = ([], .error .unboundLocal)) ∧
    (∀ (env : NsTermEnv) (auto : Bool) (e : PyError),
      ns_terminate { env with fetchNslcmop := .ok auto, fetchNsr := .error e }
        = ([.writeNslcmop ⟨"FAILED Getting nsr, nslcmop from db: " ++ e.str,
            some "FAILED", true⟩], .error .unboundLocal)) ∧
    (∀ (env : NsTermEnv) (auto : Bool) (lcm0 : NsrLcm),
      ns_terminate
          { env with fetchNslcmop := .ok auto, fetchNsr := .ok ("NOT_INSTANTIATED", lcm0) }
        = ([], .error .unboundLocal)) ∧
    (∀ (env : NsTermEnv) (lcm0 : NsrLcm),
      (ns_terminate
          { env with fetchNslcmop := .ok false, fetchNsr := .ok ("INSTANTIATED", lcm0) }).2
        = .ok () ∧
      ((lastNslcmopWrite (ns_terminate
          { env with fetchNslcmop := .ok false, fetchNsr := .ok ("INSTANTIATED", lcm0) }).1).map
            (fun u => u.operationState) = some (some "FAILED") ∨
       (lastNslcmopWrite (ns_terminate
          { env with fetchNslcmop := .ok false, fetchNsr := .ok ("INSTANTIATED", lcm0) }).1).map
            (fun u => u.operationState) = some (some "COMPLETED"))) ∧
    (∀ (lcm0 : NsrLcm) (o₁ o₂ : Option String) (ov : List (String × Option String)),
      (ns_terminate ⟨.ok true, .ok ("INSTANTIATED", lcm0), asDel404 o₁, asDel404 o₂,
          ov.map (fun p => (p.1, asDel404 p.2)), []⟩).2 = .error .unboundLocal ∧
      lastNslcmopWrite (ns_terminate ⟨.ok true, .ok ("INSTANTIATED", lcm0),
          asDel404 o₁, asDel404 o₂, ov.map (fun p => (p.1, asDel404 p.2)), []⟩).1
        = none ∧
      Effect.delNsrRow ∈ (ns_terminate ⟨.ok true, .ok ("INSTANTIATED", lcm0),
          asDel404 o₁, asDel404 o₂, ov.map (fun p => (p.1, asDel404 p.2)), []⟩).1) := by
  refine ⟨?_, ?_, ?_, ?_, ?_, ?_, ?_, ?_, ?_, ?_, ?_, ?_, ?_, ?_, ?_, ?_, ?_, ?_, ?_,
    ?_, ?_, ?_, ?_, ?_⟩
  · intro env e; cases env; rfl
  · intro env
    obtain ⟨fv, sc, fs, rc, ra, b⟩ := env
    rcases sc with _ | sdnId
    · rcases rc with e | uuid
      · exact ⟨_, rfl, Or.inr rfl⟩
      · rcases ra with e2 | u2
        · exact ⟨_, rfl, Or.inr rfl⟩
        · exact ⟨_, rfl, Or.inl rfl⟩
    · rcases fs with e | o
      · exact ⟨_, rfl, Or.inr rfl⟩
      · rcases o with _ | x
        · exact ⟨_, rfl, Or.inr rfl⟩
        · rcases rc with e | uuid
          · exact ⟨_, rfl, Or.inr rfl⟩
          · rcases ra with e2 | u2
            · exact ⟨_, rfl, Or.inr rfl⟩
            · exact ⟨_, rfl, Or.inl rfl⟩
  · intro env e; cases env; rfl
  · intro env e; cases env; rfl
  · intro env step e ns0
    cases env
    simp [ns_instantiate, instFailureWrites, lastNslcmopWrite]
  · intro env nsdId vnfdIds dep ns0 step e
    obtain ⟨nsrId, p1, ro0, sNs, dNs, npar, lp⟩ := env
    refine ⟨⟨"FAILED " ++ step ++ ": " ++ e.str, some "FAILED", true⟩, ?_, rfl⟩
    have h : (roPhases nsrId nsdId vnfdIds (.ok "ACTIVE") dNs (.ok ())
        ⟨ro0, dep.getD ⟨none, none, [], "SCHEDULED"⟩, ns0, 0, []⟩).2 = none :=
      recoverNs_ok_of_not_error (by decide) _ _
    simp only [ns_instantiate, instFailureWrites]
    rw [h]
    simp [lastNslcmopWrite, List.foldl_append]
  · intro env nsdId vnfdIds dep ns0 n
    obtain ⟨nsrId, p1, ro0, sNs, dNs, npar, lp⟩ := env
    have h : (roPhases nsrId nsdId vnfdIds (.ok "ACTIVE") dNs (.ok ())
        ⟨ro0, dep.getD ⟨none, none, [], "SCHEDULED"⟩, ns0, 0, []⟩).2 = none :=
      recoverNs_ok_of_not_error (by decide) _ _
    by_cases hn : n > 0
    · constructor
      · simp only [ns_instantiate]
        rw [h]
        simp [hn]
      · refine ⟨⟨"configuring: init: " ++ toString n, none, false⟩, ?_, Or.inr rfl⟩
        simp only [ns_instantiate]
        rw [h]
        simp [hn, lastNslcmopWrite, List.foldl_append]
    · constructor
      · simp only [ns_instantiate]
        rw [h]
        simp [hn]
      · refine ⟨⟨"done", some "COMPLETED", false⟩, ?_, Or.inl rfl⟩
        simp only [ns_instantiate]
        rw [h]
        simp [hn, lastNslcmopWrite, List.foldl_append]
  · intro env e; cases env; rfl
  · intro env o
    obtain ⟨vid, fv, sc, fs, evn, rev, haf, rea⟩ := env
    rcases o with _ | roId
    · exact ⟨_, rfl, Or.inr rfl⟩
    · rcases sc with _ | s
      · cases evn <;> cases haf <;>
          rcases rev with e | u1 <;> rcases rea with e2 | u2 <;>
          first
            | exact ⟨_, rfl, Or.inl rfl⟩
            | exact ⟨_, rfl, Or.inr rfl⟩
      · rcases fs with e | o2
        · exact ⟨_, rfl, Or.inr rfl⟩
        · rcases o2 with _ | x
          · exact ⟨_, rfl, Or.inr rfl⟩
          · cases evn <;> cases haf <;>
              rcases rev with e | u1 <;> rcases rea with e2 | u2 <;>
              first
                | exact ⟨_, rfl, Or.inl rfl⟩
                | exact ⟨_, rfl, Or.inr rfl⟩
  · intro env e; cases env; rfl
  · intro env
    obtain ⟨fs, rc⟩ := env
    rcases rc with e | uuid
    · exact ⟨_, rfl, Or.inr rfl⟩
    · exact ⟨_, rfl, Or.inl rfl⟩
  · intro env e; cases env; rfl
  · intro env o
    obtain ⟨fs, en, re⟩ := env
    rcases o with _ | roId
    · exact ⟨_, rfl, Or.inr rfl⟩
    · cases en <;> rcases re with e | u1 <;>
        first
          | exact ⟨_, rfl, Or.inl rfl⟩
          | exact ⟨_, rfl, Or.inr rfl⟩
  · intro env e; cases env; rfl
  · intro env o
    obtain ⟨fv, dt, dl, d1⟩ := env
    rcases o with _ | roId
    · rcases d1 with e | u1
      · exact Or.inr rfl
      · exact Or.inl rfl
    · rcases dt with _ | cm
      · rcases dl with _ | cm2
        · rcases d1 with e | u1
          · exact Or.inr rfl
          · exact Or.inl rfl
        · obtain ⟨c2, m2⟩ := cm2
          by_cases h4 : c2 = 404
          · rcases d1 with e | u1
            · refine Or.inr ?_; simp [vim_delete, h4]
            · refine Or.inl ?_; simp [vim_delete, h4]
          · refine Or.inr ?_; simp [vim_delete, h4]
      · obtain ⟨c, m⟩ := cm
        by_cases h4 : c = 404
        · rcases dl with _ | cm2
          · rcases d1 with e | u1
            · refine Or.inr ?_; simp [vim_delete, h4]
            · refine Or.inl ?_; simp [vim_delete, h4]
          · obtain ⟨c2, m2⟩ := cm2
            by_cases h42 : c2 = 404
            · rcases d1 with e | u1
              · refine Or.inr ?_; simp [vim_delete, h4, h42]
              · refine Or.inl ?_; simp [vim_delete, h4, h42]
            · refine Or.inr ?_; simp [vim_delete, h4, h42]
        · refine Or.inr ?_; simp [vim_delete, h4]
  · intro env e; cases env; rfl
  · intro env o
    obtain ⟨fs, dl, d1⟩ := env
    rcases o with _ | roId
    · rcases d1 with e | u1
      · exact Or.inr rfl
      · exact Or.inl rfl
    · rcases dl with _ | cm
      · rcases d1 with e | u1
        · exact Or.inr rfl
        · exact Or.inl rfl
      · obtain ⟨c, m⟩ := cm
        by_cases h4 : c = 404
        · rcases d1 with e | u1
          · refine Or.inr ?_; simp [sdn_delete, h4]
          · refine Or.inl ?_; simp [sdn_delete, h4]
        · refine Or.inr ?_; simp [sdn_delete, h4]
  · intro env e; cases env; rfl
  · intro env vIdx
    obtain ⟨f1, f2, outc⟩ := env
    rcases f2 with e | vcaMap
    · exact ⟨Or.inl rfl, rfl⟩
    · rcases h : lookupFirst vcaMap vIdx with _ | ovca
      · refine ⟨Or.inl ?_, ?_⟩ <;> simp [ns_action, h]
      · rcases ovca with _ | vca
        · refine ⟨Or.inl ?_, ?_⟩ <;> simp [ns_action, h]
        · by_cases hf : strFalsy vca.model = true ∨ strFalsy vca.application = true
          · refine ⟨Or.inl ?_, ?_⟩ <;> simp [ns_action, h, hf]
          · by_cases ha : vca.operationalStatus ≠ "active"
            · refine ⟨Or.inl ?_, ?_⟩ <;> simp [ns_action, h, hf, ha]
            · rcases outc with _ | _ | m | _
              · refine ⟨Or.inl ?_, ?_⟩ <;> simp [ns_action, h, hf, ha]
              · refine ⟨Or.inr ?_, ?_⟩ <;> simp [ns_action, h, hf, ha]
              · refine ⟨Or.inl ?_, ?_⟩ <;> simp [ns_action, h, hf, ha]
              · refine ⟨Or.inl ?_, ?_⟩ <;> simp [ns_action, h, hf, ha]
  · intro env e; cases env; rfl
  · intro env auto e; cases env; rfl
  · intro env auto lcm0; cases env; rfl
  · intro env lcm0
    obtain ⟨f1, f2, dNs, dNsd, dV, tO⟩ := env
    rcases hexc : (vcaWait tO lcm0.VCA (vcaTasksOf lcm0.VCA)).excv with _ | m <;>
      by_cases h1 : (deleteNsStep dNs lcm0.RO.nsr_id lcm0.RO.nsr_status).fd = [] <;>
      by_cases h2 : (deleteNsdStep dNsd lcm0.RO.nsd_id).2.1 = [] <;>
      by_cases h3 : (deleteVnfds dV lcm0.RO.vnfd_id).fd = [] <;>
      by_cases h4 : (vcaWait tO lcm0.VCA (vcaTasksOf lcm0.VCA)).fd = [] <;>
      refine ⟨?_, ?_⟩ <;>
      simp [ns_terminate, hexc, h1, h2, h3, h4, lastNslcmopWrite, List.foldl_append]
  · intro lcm0 o₁ o₂ ov
    have hfd := deleteVnfds_404_fd ov lcm0.RO.vnfd_id
    have hvca := vcaWait_empty_fd lcm0.VCA (vcaTasksOf lcm0.VCA)
    refine ⟨?_, ?_, ?_⟩
    · simp [ns_terminate, deleteNsStep_404_fd, deleteNsdStep_404_fd, hfd,
        hvca.1, hvca.2]
    · apply lastNslcmopWrite_eq_none
      intro u hu
      simp [ns_terminate, deleteNsStep_404_fd, deleteNsdStep_404_fd, hfd,
        hvca.1, hvca.2] at hu
      rcases hu with hu | hu | hu
      · exact no_op_write_deleteNsStep _ _ _ _ hu
      · exact no_op_write_deleteNsdStep _ _ _ hu
      · exact no_op_write_deleteVnfds _ _ _ hu
    · simp [ns_terminate, deleteNsStep_404_fd, deleteNsdStep_404_fd, hfd,
        hvca.1, hvca.2]

/-! ## Lemmas about the idempotent RO registration of ns_instantiate -/

theorem registerVnfdOne_ro_mono (nsrId : String) (st : RoPhaseState) (v : String) :
    ∃ t, (registerVnfdOne nsrId st v).ro.vnfds = st.ro.vnfds ++ t := by
  rcases h : lookupFirst st.ro.vnfds (ro_osm_id nsrId v) with _ | u
  · exact ⟨[(ro_osm_id nsrId v, "uuid-" ++ toString st.ro.fresh)],
      by simp [registerVnfdOne, h, ROState.freshUuid]⟩
  · exact ⟨[], by simp [registerVnfdOne, h]⟩

theorem registerVnfds_ro_mono (nsrId : String) (vs : List String) (st : RoPhaseState) :
    ∃ t, (registerVnfds nsrId st vs).ro.vnfds = st.ro.vnfds ++ t := by
  induction vs generalizing st with
  | nil => exact ⟨[], by simp [registerVnfds]⟩
  | cons w rest ih =>
    obtain ⟨t₁, h₁⟩ := registerVnfdOne_ro_mono nsrId st w
    obtain ⟨t₂, h₂⟩ := ih (registerVnfdOne nsrId st w)
    refine ⟨t₁ ++ t₂, ?_⟩
    show (registerVnfds nsrId (registerVnfdOne nsrId st w) rest).ro.vnfds = _
    rw [h₂, h₁, List.append_assoc]

theorem registerVnfds_lookup_stable {nsrId : String} {st : RoPhaseState}
    (vs : List String) {k u : String}
    (h : lookupFirst st.ro.vnfds k = some u) :
    lookupFirst (registerVnfds nsrId st vs).ro.vnfds k = some u := by
  obtain ⟨t, ht⟩ := registerVnfds_ro_mono nsrId vs st
  rw [ht]
  exact lookupFirst_append_left t h

theorem registerVnfdOne_establish (nsrId : String) (st : RoPhaseState) (v : String) :
    ∃ u, lookupFirst (registerVnfdOne nsrId st v).ro.vnfds (ro_osm_id nsrId v) = some u ∧
      lookupFirst (registerVnfdOne nsrId st v).lcmRO.vnfd_id v = some (some u) := by
  rcases h : lookupFirst st.ro.vnfds (ro_osm_id nsrId v) with _ | u
  · refine ⟨"uuid-" ++ toString st.ro.fresh, ?_, ?_⟩
    · simp only [registerVnfdOne, h, ROState.freshUuid]
      rw [lookupFirst_append_of_none _ h]
      simp [lookupFirst]
    · simp only [registerVnfdOne, h, ROState.freshUuid]
      exact lookupFirst_setAssoc_self _ _ _
  · refine ⟨u, ?_, ?_⟩
    · simp [registerVnfdOne, h]
    · simp only [registerVnfdOne, h]
      exact lookupFirst_setAssoc_self _ _ _

theorem registerVnfdOne_map_ne {nsrId : String} {st : RoPhaseState} {v w : String}
    (h : w ≠ v) :
    lookupFirst (registerVnfdOne nsrId st w).lcmRO.vnfd_id v
      = lookupFirst st.lcmRO.vnfd_id v := by
  rcases hh : lookupFirst st.ro.vnfds (ro_osm_id nsrId w) with _ | u
  · simp only [registerVnfdOne, hh]
    exact lookupFirst_setAssoc_ne _ _ (fun hc => h hc.symm)
  · simp only [registerVnfdOne, hh]
    exact lookupFirst_setAssoc_ne _ _ (fun hc => h hc.symm)

theorem registerVnfds_map_preserve {nsrId : String} {v : String}
    (vs : List String) (st : RoPhaseState) (h : v ∉ vs) :
    lookupFirst (registerVnfds nsrId st vs).lcmRO.vnfd_id v
      = lookupFirst st.lcmRO.vnfd_id v := by
  induction vs generalizing st with
  | nil => rfl
  | cons w rest ih =>
    have hw : w ≠ v := fun hc => h (hc ▸ List.mem_cons_self w rest)
    have hrest : v ∉ rest := fun hc => h (List.mem_cons_of_mem w hc)
    show lookupFirst (registerVnfds nsrId (registerVnfdOne nsrId st w) rest).lcmRO.vnfd_id v = _
    rw [ih _ hrest, registerVnfdOne_map_ne hw]

/-- After a run of phase 2, every processed vnfd id is registered at RO
under its `osm_id` and the deployed map holds exactly that uuid. -/
theorem registerVnfds_invariant (nsrId : String) (vs : List String)
    (st : RoPhaseState) (v : String) (hv : v ∈ vs) :
    ∃ u, lookupFirst (registerVnfds nsrId st vs).ro.vnfds (ro_osm_id nsrId v) = some u ∧
      lookupFirst (registerVnfds nsrId st vs).lcmRO.vnfd_id v = some (some u) := by
  induction vs generalizing st with
  | nil => cases hv
  | cons w rest ih =>
    by_cases hmem : v ∈ rest
    · exact ih (registerVnfdOne nsrId st w) hmem
    · have hvw : v = w := by
        rcases List.mem_cons.mp hv with h | h
        · exact h
        · exact absurd h hmem
      subst hvw
      obtain ⟨u, hro, hmap⟩ := registerVnfdOne_establish nsrId st v
      refine ⟨u, ?_, ?_⟩
      · exact registerVnfds_lookup_stable rest hro
      · show lookupFirst (registerVnfds nsrId (registerVnfdOne nsrId st v) rest).lcmRO.vnfd_id v = _
        rw [registerVnfds_map_preserve rest _ hmem, hmap]

/-- A phase-2 run over ids that are all already registered (with the map
agreeing) issues no `RO.create`, leaves the RO untouched and reproduces the
same deployed map. -/
theorem registerVnfds_no_create (nsrId : String) (vs : List String)
    (st : RoPhaseState)
    (h : ∀ v ∈ vs, ∃ u, lookupFirst st.ro.vnfds (ro_osm_id nsrId v) = some u ∧
      lookupFirst st.lcmRO.vnfd_id v = some (some u)) :
    (registerVnfds nsrId st vs).ro = st.ro ∧
    (registerVnfds nsrId st vs).created = st.created ∧
    (registerVnfds nsrId st vs).nsState = st.nsState ∧
    (registerVnfds nsrId st vs).lcmRO = st.lcmRO := by
  induction vs generalizing st with
  | nil => exact ⟨rfl, rfl, rfl, rfl⟩
  | cons w rest ih =>
    obtain ⟨u, hro, hmap⟩ := h w (List.mem_cons_self w rest)
    have hstep : (registerVnfdOne nsrId st w).ro = st.ro ∧
        (registerVnfdOne nsrId st w).created = st.created ∧
        (registerVnfdOne nsrId st w).nsState = st.nsState ∧
        (registerVnfdOne nsrId st w).lcmRO = st.lcmRO := by
      refine ⟨?_, ?_, ?_, ?_⟩ <;> simp [registerVnfdOne, hro, setAssoc_self_eq hmap]
    have hrest : ∀ v ∈ rest, ∃ u',
        lookupFirst (registerVnfdOne nsrId st w).ro.vnfds (ro_osm_id nsrId v) = some u' ∧
        lookupFirst (registerVnfdOne nsrId st w).lcmRO.vnfd_id v = some (some u') := by
      intro v hv
      rw [hstep.1, hstep.2.2.2]
      exact h v (List.mem_cons_of_mem w hv)
    have hfold := ih (registerVnfdOne nsrId st w) hrest
    have hshow : registerVnfds nsrId st (w :: rest)
        = registerVnfds nsrId (registerVnfdOne nsrId st w) rest := rfl
    rw [hshow]
    exact ⟨hfold.1.trans hstep.1, hfold.2.1.trans hstep.2.1,
      hfold.2.2.1.trans hstep.2.2.1, hfold.2.2.2.trans hstep.2.2.2⟩

/-- nsState flips to INSTANTIATED exactly when a phase-2 run actually
creates something; otherwise it is untouched. -/
theorem registerVnfds_nsState (nsrId : String) (vs : List String) (st : RoPhaseState) :
    ((registerVnfds nsrId st vs).created = st.created ∧
      (registerVnfds nsrId st vs).nsState = st.nsState) ∨
    ((registerVnfds nsrId st vs).created > st.created ∧
      (registerVnfds nsrId st vs).nsState = some "INSTANTIATED") := by
  induction vs generalizing st with
  | nil => exact Or.inl ⟨rfl, rfl⟩
  | cons w rest ih =>
    have hfold := ih (registerVnfdOne nsrId st w)
    have hshow : registerVnfds nsrId st (w :: rest)
        = registerVnfds nsrId (registerVnfdOne nsrId st w) rest := rfl
    rw [hshow]
    rcases hstep : lookupFirst st.ro.vnfds (ro_osm_id nsrId w) with _ | u
    · have hc : (registerVnfdOne nsrId st w).created = st.created + 1 := by
        simp [registerVnfdOne, hstep, ROState.freshUuid]
      have hn : (registerVnfdOne nsrId st w).nsState = some "INSTANTIATED" := by
        simp [registerVnfdOne, hstep, ROState.freshUuid]
      rcases hfold with ⟨h1, h2⟩ | ⟨h1, h2⟩
      · exact Or.inr ⟨by omega, h2.trans hn⟩
      · exact Or.inr ⟨by omega, h2⟩
    · have hc : (registerVnfdOne nsrId st w).created = st.created := by
        simp [registerVnfdOne, hstep]
      have hn : (registerVnfdOne nsrId st w).nsState = st.nsState := by
        simp [registerVnfdOne, hstep]
      rcases hfold with ⟨h1, h2⟩ | ⟨h1, h2⟩
      · exact Or.inl ⟨by omega, h2.trans hn⟩
      · exact Or.inr ⟨by omega, h2⟩

theorem registerNsd_found {nsrId nsdId : String} {st : RoPhaseState} {u : String}
    (h : lookupFirst st.ro.nsds (ro_osm_id nsrId nsdId) = some u) :
    (registerNsd nsrId nsdId st).ro = st.ro ∧
    (registerNsd nsrId nsdId st).created = st.created ∧
    (registerNsd nsrId nsdId st).lcmRO.nsd_id = some u := by
  refine ⟨?_, ?_, ?_⟩ <;> simp [registerNsd, h]

theorem recoverNs_reuse {s : String} (hs : s ≠ "ERROR") (rid : String)
    (del : Option (Nat × String)) (np : Except PyError Unit) (st : RoPhaseState) :
    (recoverNs (.ok s) del np
        { st with lcmRO := { st.lcmRO with nsr_id := some rid } }).2 = none ∧
    (recoverNs (.ok s) del np
        { st with lcmRO := { st.lcmRO with nsr_id := some rid } }).1.created = st.created ∧
    (recoverNs (.ok s) del np
        { st with lcmRO := { st.lcmRO with nsr_id := some rid } }).1.ro = st.ro ∧
    (recoverNs (.ok s) del np
        { st with lcmRO := { st.lcmRO with nsr_id := some rid } }).1.lcmRO.nsr_id
      = some rid := by
  refine ⟨?_, ?_, ?_, ?_⟩ <;> simp [recoverNs, hs]

set_option maxRecDepth 4000 in
/-- C7: idempotent crash recovery of the RO registration phases. The RO
identity is `nsr_id ++ "." ++` the descriptor id truncated to 200
characters (conjunct 1); a vnfd or nsd already registered under that
`osm_id` is reused, with no `RO.create` issued and its existing uuid stored
(conjuncts 2-3); an existing NS shown in a non-ERROR state is reused
(conjunct 4); `_admin.nsState` flips to INSTANTIATED exactly when a run
actually creates an artifact, and is untouched otherwise (conjunct 5);
re-running the VNFD registration over the RO and deployed map produced by
an earlier run performs zero creations and reproduces the same uuid
assignments (conjunct 6). -/
theorem C7_ro_reuse_idempotent :
    (∀ nsrId descId, ro_osm_id nsrId descId = nsrId ++ "." ++ descId.take 200) ∧
    (∀ (nsrId : String) (st : RoPhaseState) (v u : String),
      lookupFirst st.ro.vnfds (ro_osm_id nsrId v) = some u →
      (registerVnfdOne nsrId st v).ro = st.ro ∧
      (registerVnfdOne nsrId st v).created = st.created ∧
      lookupFirst (registerVnfdOne nsrId st v).lcmRO.vnfd_id v = some (some u)) ∧
    (∀ (nsrId nsdId : String) (st : RoPhaseState) (u : String),
      lookupFirst st.ro.nsds (ro_osm_id nsrId nsdId) = some u →
      (registerNsd nsrId nsdId st).ro = st.ro ∧
      (registerNsd nsrId nsdId st).created = st.created ∧
      (registerNsd nsrId nsdId st).lcmRO.nsd_id = some u) ∧
    (∀ (st : RoPhaseState) (rid s : String) (del : Option (Nat × String))
        (np : Except PyError Unit), s ≠ "ERROR" →
      (recoverNs (.ok s) del np
          { st with lcmRO := { st.lcmRO with nsr_id := some rid } }).2 = none ∧
      (recoverNs (.ok s) del np
          { st with lcmRO := { st.lcmRO with nsr_id := some rid } }).1.created
        = st.created ∧
      (recoverNs (.ok s) del np
          { st with lcmRO := { st.lcmRO with nsr_id := some rid } }).1.lcmRO.nsr_id
        = some rid) ∧
    (∀ (nsrId : String) (st : RoPhaseState) (vs : List String),
      ((registerVnfds nsrId st vs).created = st.created ∧
        (registerVnfds nsrId st vs).nsState = st.nsState) ∨
      ((registerVnfds nsrId st vs).created > st.created ∧
        (registerVnfds nsrId st vs).nsState = some "INSTANTIATED")) ∧
    (∀ (nsrId : String) (st : RoPhaseState) (vs : List String),
      (registerVnfds nsrId ⟨(registerVnfds nsrId st vs).ro,
          (registerVnfds nsrId st vs).lcmRO,
          (registerVnfds nsrId st vs).nsState, 0, []⟩ vs).created = 0 ∧
      (registerVnfds nsrId ⟨(registerVnfds nsrId st vs).ro,
          (registerVnfds nsrId st vs).lcmRO,
          (registerVnfds nsrId st vs).nsState, 0, []⟩ vs).ro
        = (registerVnfds nsrId st vs).ro ∧
      (registerVnfds nsrId ⟨(registerVnfds nsrId st vs).ro,
          (registerVnfds nsrId st vs).lcmRO,
          (registerVnfds nsrId st vs).nsState, 0, []⟩ vs).lcmRO
        = (registerVnfds nsrId st vs).lcmRO) := by
  refine ⟨fun _ _ => rfl, ?_, ?_, ?_, ?_, ?_⟩
  · intro nsrId st v u h
    refine ⟨?_, ?_, ?_⟩
    · simp [registerVnfdOne, h]
    · simp [registerVnfdOne, h]
    · simp only [registerVnfdOne, h]
      exact lookupFirst_setAssoc_self _ _ _
  · intro nsrId nsdId st u h
    exact registerNsd_found h
  · intro st rid s del np hs
    have h := recoverNs_reuse hs rid del np st
    exact ⟨h.1, h.2.1, h.2.2.2⟩
  · intro nsrId st vs
    exact registerVnfds_nsState nsrId vs st
  · intro nsrId st vs
    have hinv : ∀ v ∈ vs, ∃ u,
        lookupFirst ((⟨(registerVnfds nsrId st vs).ro, (registerVnfds nsrId st vs).lcmRO,
          (registerVnfds nsrId st vs).nsState, 0, []⟩ : RoPhaseState)).ro.vnfds
          (ro_osm_id nsrId v) = some u ∧
        lookupFirst ((⟨(registerVnfds nsrId st vs).ro, (registerVnfds nsrId st vs).lcmRO,
          (registerVnfds nsrId st vs).nsState, 0, []⟩ : RoPhaseState)).lcmRO.vnfd_id v
          = some (some u) := by
      intro v hv
      exact registerVnfds_invariant nsrId vs st v hv
    have h := registerVnfds_no_create nsrId vs _ hinv
    exact ⟨h.2.1, h.1, h.2.2.2⟩

set_option maxRecDepth 4000 in
/-- C7 witness: the reuse clauses at concrete inputs. -/
theorem C7_ro_reuse_witness :
    (registerVnfdOne "ns1"
        ⟨⟨[("ns1.A", "u7")], [("ns1.nsd1", "u9")], 3⟩,
          ⟨none, none, [], "SCHEDULED"⟩, none, 0, []⟩ "A").created = 0 ∧
    lookupFirst (registerVnfdOne "ns1"
        ⟨⟨[("ns1.A", "u7")], [("ns1.nsd1", "u9")], 3⟩,
          ⟨none, none, [], "SCHEDULED"⟩, none, 0, []⟩ "A").lcmRO.vnfd_id "A"
      = some (some "u7") ∧
    (registerNsd "ns1" "nsd1"
        ⟨⟨[("ns1.A", "u7")], [("ns1.nsd1", "u9")], 3⟩,
          ⟨none, none, [], "SCHEDULED"⟩, none, 0, []⟩).lcmRO.nsd_id = some "u9" ∧
    (recoverNs (.ok "ACTIVE") none (.ok ())
        { (⟨⟨[("ns1.A", "u7")], [("ns1.nsd1", "u9")], 3⟩,
            ⟨none, none, [], "SCHEDULED"⟩, none, 0, []⟩ : RoPhaseState) with
          lcmRO := { (⟨none, none, [], "SCHEDULED"⟩ : NsrLcmRO) with
            nsr_id := some "ro-ns" } }).2 = none ∧
    (registerVnfds "ns1"
        ⟨(registerVnfds "ns1" ⟨⟨[], [], 0⟩, ⟨none, none, [], "SCHEDULED"⟩, none, 0, []⟩
            ["A", "B"]).ro,
          (registerVnfds "ns1" ⟨⟨[], [], 0⟩, ⟨none, none, [], "SCHEDULED"⟩, none, 0, []⟩
            ["A", "B"]).lcmRO,
          (registerVnfds "ns1" ⟨⟨[], [], 0⟩, ⟨none, none, [], "SCHEDULED"⟩, none, 0, []⟩
            ["A", "B"]).nsState, 0, []⟩ ["A", "B"]).created = 0 := by
  refine ⟨?_, ?_, ?_, ?_, ?_⟩
  · exact (C7_ro_reuse_idempotent.2.1 "ns1" _ "A" "u7" (by rfl)).2.1
  · exact (C7_ro_reuse_idempotent.2.1 "ns1" _ "A" "u7" (by rfl)).2.2
  · exact (C7_ro_reuse_idempotent.2.2.1 "ns1" "nsd1" _ "u9" (by rfl)).2.2
  · exact (C7_ro_reuse_idempotent.2.2.2.1 _ "ro-ns" "ACTIVE" none (.ok ())
      (by decide)).1
  · exact (C7_ro_reuse_idempotent.2.2.2.2.2 "ns1"
      ⟨⟨[], [], 0⟩, ⟨none, none, [], "SCHEDULED"⟩, none, 0, []⟩ ["A", "B"]).1

end OsmLcm
